import Mathlib

/-!
Verification development for the jalali-pandas calendar core.

The definitions below are a shallow embedding of the Python sources:

* `src/jalali_pandas/core/calendar.py` (leap-year oracle, month lengths,
  Julian-Day-Number converter, date validation),
* `src/jalali_pandas/core/timestamp.py` (the `JalaliTimestamp` value type,
  its comparisons, and the `JalaliNaT` missing-value sentinel),
* `src/jalali_pandas/offsets/{base,month,quarter,year}.py` (calendar offsets),
* `src/jalali_pandas/offsets/aliases.py` (frequency-alias parsing),
* `src/jalali_pandas/core/conversion.py` (scalar conversion entry points and
  the lookup-cache discipline; the underlying Jalali/Gregorian date map is
  delegated by the source to the external jdatetime package and is therefore
  modelled from the specification, see the definitions marked
  "Modelled from the spec").

Python unbounded integers are embedded as `Int`; Python floor division `//`
and modulo `%` are `Int.fdiv` and `Int.fmod` (for the positive divisors used
throughout they agree with `Int.ediv`/`Int.emod`).  Python functions that
raise are embedded as `Except`-valued functions.
-/

namespace JalaliPandas

/-! ### calendar.py -/

/-- Leap year remainders in the 33-year cycle (calendar.py, `LEAP_YEAR_REMAINDERS`). -/
def LEAP_YEAR_REMAINDERS : List Int := [1, 5, 9, 13, 17, 22, 26, 30]

/-- calendar.py `is_leap_year`: `year % 33 in LEAP_YEAR_REMAINDERS`. -/
def is_leap_year (year : Int) : Bool :=
  LEAP_YEAR_REMAINDERS.contains (year.fmod 33)

/-- calendar.py `days_in_year`. -/
def days_in_year (year : Int) : Int :=
  if is_leap_year year then 366 else 365

/-- calendar.py `MONTH_LENGTHS` (non-leap years). -/
def MONTH_LENGTHS : List Int := [31, 31, 31, 31, 31, 31, 30, 30, 30, 30, 30, 29]

/-- calendar.py `MONTH_STARTS` (cumulative days at start of each month, non-leap). -/
def MONTH_STARTS : List Int := [0, 31, 62, 93, 124, 155, 186, 216, 246, 276, 306, 336]

/-- Error taxonomy for date validation.  The Python code raises `ValueError`
with distinct messages; the spec names them `InvalidMonth` and `InvalidDate`. -/
inductive DateError where
  | invalidMonth : DateError
  | invalidDate : DateError
deriving DecidableEq

deriving instance DecidableEq for Except

/-- Body of calendar.py `days_in_month` after its month-range guard:
month 12 has 30 days in leap years and 29 otherwise, other months come from
the `MONTH_LENGTHS` table. -/
def month_len (year month : Int) : Int :=
  if month = 12 then (if is_leap_year year then 30 else 29)
  else MONTH_LENGTHS.getD (month - 1).toNat 0

/-- calendar.py `days_in_month`: raises (here: returns an error) when the
month is outside 1..12. -/
def days_in_month (year month : Int) : Except DateError Int :=
  if 1 ≤ month ∧ month ≤ 12 then Except.ok (month_len year month)
  else Except.error DateError.invalidMonth

/-- calendar.py `validate_jalali_date`: month guard via `days_in_month`,
then the day bound `1 <= day <= max_day`; returns `True` on success. -/
def validate_jalali_date (year month day : Int) : Except DateError Bool :=
  match days_in_month year month with
  | Except.error e => Except.error e
  | Except.ok maxDay =>
      if 1 ≤ day ∧ day ≤ maxDay then Except.ok true
      else Except.error DateError.invalidDate

/-- calendar.py `jalali_to_jdn`: the closed-form 2820-year-cycle formula.
Note that, unlike `validate_jalali_date`, this function performs no
validation: it is total. -/
def jalali_to_jdn (year month day : Int) : Int :=
  let a : Int := if year > 0 then year - 474 else year - 473
  let b : Int := a.fmod 2820
  day + (month - 1) * 30 + min 6 (month - 1)
    + (b * 682 - 110).fdiv 2816 + (b - 1) * 365 + (a.fdiv 2820) * 1029983 + 2121445

/-- calendar.py `jdn_to_jalali`, inner helper `days_to_year_start`:
offset of the start of cycle-year `b` within the 2820-year cycle. -/
def days_to_year_start (b : Int) : Int :=
  1 + (b * 682 - 110).fdiv 2816 + (b - 1) * 365

/-- The `while lo < hi` binary search of calendar.py `jdn_to_jalali`, with an
explicit fuel argument.  The interval length `hi - lo` shrinks by at least one
per iteration, so any fuel of at least 2820 makes this equal to the loop
(callers pass 2821 from the initial interval `[0, 2820]`). -/
def jdn_year_search (dayInCycle : Int) : Nat → Nat → Nat → Nat
  | 0, lo, _ => lo
  | fuel + 1, lo, hi =>
    if lo < hi then
      let mid := (lo + hi + 1) / 2
      if days_to_year_start mid ≤ dayInCycle then jdn_year_search dayInCycle fuel mid hi
      else jdn_year_search dayInCycle fuel lo (mid - 1)
    else lo

/-- calendar.py `jdn_to_jalali`: inverse of the 2820-cycle formula, locating
the cycle by division, the year by binary search, and the month/day by the
31/30-day block arithmetic.  (The Python negative-remainder fixup is kept;
it is dead code because `%` with a positive modulus is never negative.) -/
def jdn_to_jalali (jdn : Int) : Int × Int × Int :=
  let jdnOffset : Int := jdn - 2121445
  let cycle0 : Int := jdnOffset.fdiv 1029983
  let day0 : Int := jdnOffset.fmod 1029983
  let cycle2820 : Int := if day0 < 0 then cycle0 - 1 else cycle0
  let dayInCycle : Int := if day0 < 0 then day0 + 1029983 else day0
  let yearInCycle : Int := jdn_year_search dayInCycle 2821 0 2820
  let remainingDays : Int := dayInCycle - days_to_year_start yearInCycle
  let year : Int := cycle2820 * 2820 + yearInCycle + 474
  if remainingDays < 186 then
    (year, remainingDays.fdiv 31 + 1, remainingDays.fmod 31 + 1)
  else
    let r1 : Int := remainingDays - 186
    if r1 < 150 then (year, r1.fdiv 30 + 7, r1.fmod 30 + 1)
    else (year, 12, r1 - 150 + 1)

/-- calendar.py `quarter_of_month`. -/
def quarter_of_month (month : Int) : Int :=
  (month - 1).fdiv 3 + 1

/-! ### timestamp.py: the JalaliTimestamp value type -/

/-- The component record of timestamp.py `JalaliTimestamp` (`__slots__`
minus the derived Gregorian cache).  The timezone is an opaque handle
(`tzinfo` in the source); its internals are never inspected by the
operations embedded here, so it is represented by `Option Nat`. -/
@[ext]
structure JalaliTimestamp where
  year : Int
  month : Int
  day : Int
  hour : Int := 0
  minute : Int := 0
  second : Int := 0
  microsecond : Int := 0
  nanosecond : Int := 0
  tzinfo : Option Nat := none
deriving DecidableEq

/-- The validity invariant enforced by `JalaliTimestamp.__init__`:
`validate_jalali_date` passes and the time components are in range. -/
def valid_ts (t : JalaliTimestamp) : Prop :=
  validate_jalali_date t.year t.month t.day = Except.ok true
  ∧ 0 ≤ t.hour ∧ t.hour ≤ 23
  ∧ 0 ≤ t.minute ∧ t.minute ≤ 59
  ∧ 0 ≤ t.second ∧ t.second ≤ 59
  ∧ 0 ≤ t.microsecond ∧ t.microsecond ≤ 999999
  ∧ 0 ≤ t.nanosecond ∧ t.nanosecond ≤ 999

instance (t : JalaliTimestamp) : Decidable (valid_ts t) := by
  unfold valid_ts; infer_instance

/-- timestamp.py `JalaliTimestamp.__eq__`: component-wise comparison of the
eight date/time fields.  The source compares exactly these attributes. -/
def ts_eq (a b : JalaliTimestamp) : Bool :=
  a.year == b.year && a.month == b.month && a.day == b.day
    && a.hour == b.hour && a.minute == b.minute && a.second == b.second
    && a.microsecond == b.microsecond && a.nanosecond == b.nanosecond

/-! ### timestamp.py: the JalaliNaT sentinel -/

/-- A value in a position where the source accepts a timestamp or the
missing-value sentinel (`JalaliTimestampOrNaT` in the source). -/
inductive JalaliValue where
  | timestamp (t : JalaliTimestamp) : JalaliValue
  | missing : JalaliValue
deriving DecidableEq

/-- Stand-in for the Python floats returned by the NaT accessors
(`float("nan")` or an actual number). -/
inductive PyScalar where
  | nan : PyScalar
  | val (x : Int) : PyScalar
deriving DecidableEq

namespace JalaliNaT

/-- timestamp.py `_JalaliNaTType.__eq__`: true exactly for another NaT. -/
def nat_eq (other : JalaliValue) : Bool :=
  match other with
  | JalaliValue.missing => true
  | JalaliValue.timestamp _ => false

/-- timestamp.py `_JalaliNaTType.__ne__`. -/
def nat_ne (other : JalaliValue) : Bool := ! nat_eq other

/-- timestamp.py `_JalaliNaTType.__lt__`: always false. -/
def nat_lt (_other : JalaliValue) : Bool := false

/-- timestamp.py `_JalaliNaTType.__le__`: `isinstance(other, _JalaliNaTType)`. -/
def nat_le (other : JalaliValue) : Bool :=
  match other with
  | JalaliValue.missing => true
  | JalaliValue.timestamp _ => false

/-- timestamp.py `_JalaliNaTType.__gt__`: always false. -/
def nat_gt (_other : JalaliValue) : Bool := false

/-- timestamp.py `_JalaliNaTType.__ge__`: `isinstance(other, _JalaliNaTType)`. -/
def nat_ge (other : JalaliValue) : Bool :=
  match other with
  | JalaliValue.missing => true
  | JalaliValue.timestamp _ => false

/-- timestamp.py `_JalaliNaTType.__add__` (`__radd__`, `__sub__`, `__rsub__`
behave identically): returns the NaT singleton.  The argument is the other
operand (a timedelta, embedded as its total nanosecond count). -/
def nat_add (_other : Int) : JalaliValue := JalaliValue.missing

/-- timestamp.py `_JalaliNaTType.__sub__`. -/
def nat_sub (_other : Int) : JalaliValue := JalaliValue.missing

/-- timestamp.py `_JalaliNaTType.year` accessor: `float("nan")`. -/
def nat_year : PyScalar := PyScalar.nan

/-- timestamp.py `_JalaliNaTType.month` accessor. -/
def nat_month : PyScalar := PyScalar.nan

/-- timestamp.py `_JalaliNaTType.day` accessor. -/
def nat_day : PyScalar := PyScalar.nan

/-- timestamp.py `_JalaliNaTType.quarter` accessor. -/
def nat_quarter : PyScalar := PyScalar.nan

/-- timestamp.py `_JalaliNaTType.dayofyear` accessor. -/
def nat_dayofyear : PyScalar := PyScalar.nan

/-- timestamp.py `_JalaliNaTType.days_in_month` accessor. -/
def nat_days_in_month : PyScalar := PyScalar.nan

/-- timestamp.py `_JalaliNaTType.is_leap_year` accessor: `False`. -/
def nat_is_leap_year : Bool := false

/-- timestamp.py `_JalaliNaTType.is_month_start` accessor: `False`. -/
def nat_is_month_start : Bool := false

end JalaliNaT

/-! ### offsets/month.py -/

/-- offsets/month.py `JalaliMonthBegin` (fields of the `JalaliOffset` base:
period count `n`, midnight flag `normalize`). -/
structure JalaliMonthBegin where
  n : Int := 1
  normalize : Bool := false
deriving DecidableEq

namespace JalaliMonthBegin

/-- month.py `JalaliMonthBegin.__add__`: month-index arithmetic, landing on
day 1; time components are kept unless `normalize`. -/
def add (self : JalaliMonthBegin) (other : JalaliTimestamp) : JalaliTimestamp :=
  let totalMonths : Int := other.year * 12 + other.month - 1 + self.n
  let newYear : Int := totalMonths.fdiv 12
  let newMonth : Int := totalMonths.fmod 12 + 1
  { year := newYear, month := newMonth, day := 1
    hour := if self.normalize then 0 else other.hour
    minute := if self.normalize then 0 else other.minute
    second := if self.normalize then 0 else other.second
    microsecond := if self.normalize then 0 else other.microsecond
    nanosecond := if self.normalize then 0 else other.nanosecond
    tzinfo := other.tzinfo }

/-- month.py `JalaliMonthBegin.is_on_offset`: `dt.day == 1`. -/
def is_on_offset (_self : JalaliMonthBegin) (dt : JalaliTimestamp) : Bool :=
  dt.day == 1

/-- month.py `JalaliMonthBegin.rollforward`: identity on offset dates, else
`self.__add__(dt)` (note: this uses the instance's own `n`). -/
def rollforward (self : JalaliMonthBegin) (dt : JalaliTimestamp) : JalaliTimestamp :=
  if self.is_on_offset dt then dt else self.add dt

/-- month.py `JalaliMonthBegin.rollback`: identity on offset dates, else the
first day of the current month.  The source constructor call passes only
`hour`, `minute`, `second` and `tzinfo`, so `microsecond` and `nanosecond`
take their default value 0. -/
def rollback (self : JalaliMonthBegin) (dt : JalaliTimestamp) : JalaliTimestamp :=
  if self.is_on_offset dt then dt
  else
    { year := dt.year, month := dt.month, day := 1
      hour := if self.normalize then 0 else dt.hour
      minute := if self.normalize then 0 else dt.minute
      second := if self.normalize then 0 else dt.second
      microsecond := 0
      nanosecond := 0
      tzinfo := dt.tzinfo }

end JalaliMonthBegin

/-- offsets/month.py `JalaliMonthEnd`. -/
structure JalaliMonthEnd where
  n : Int := 1
  normalize : Bool := false
deriving DecidableEq

namespace JalaliMonthEnd

/-- month.py `JalaliMonthEnd.__add__`: month-index arithmetic, landing on
the last day of the target month. -/
def add (self : JalaliMonthEnd) (other : JalaliTimestamp) : JalaliTimestamp :=
  let totalMonths : Int := other.year * 12 + other.month - 1 + self.n
  let newYear : Int := totalMonths.fdiv 12
  let newMonth : Int := totalMonths.fmod 12 + 1
  let newDay : Int := month_len newYear newMonth
  { year := newYear, month := newMonth, day := newDay
    hour := if self.normalize then 0 else other.hour
    minute := if self.normalize then 0 else other.minute
    second := if self.normalize then 0 else other.second
    microsecond := if self.normalize then 0 else other.microsecond
    nanosecond := if self.normalize then 0 else other.nanosecond
    tzinfo := other.tzinfo }

/-- month.py `JalaliMonthEnd.is_on_offset`: `dt.day == days_in_month(...)`. -/
def is_on_offset (_self : JalaliMonthEnd) (dt : JalaliTimestamp) : Bool :=
  dt.day == month_len dt.year dt.month

/-- month.py `JalaliMonthEnd._get_month_end`: end of the current month; the
constructor call omits `microsecond`/`nanosecond` (default 0). -/
def get_month_end (self : JalaliMonthEnd) (dt : JalaliTimestamp) : JalaliTimestamp :=
  { year := dt.year, month := dt.month, day := month_len dt.year dt.month
    hour := if self.normalize then 0 else dt.hour
    minute := if self.normalize then 0 else dt.minute
    second := if self.normalize then 0 else dt.second
    microsecond := 0
    nanosecond := 0
    tzinfo := dt.tzinfo }

/-- month.py `JalaliMonthEnd.rollforward`. -/
def rollforward (self : JalaliMonthEnd) (dt : JalaliTimestamp) : JalaliTimestamp :=
  if self.is_on_offset dt then dt else self.get_month_end dt

/-- month.py `JalaliMonthEnd.rollback`: identity on offset dates, else the
end of the previous month (constructor omits `microsecond`/`nanosecond`). -/
def rollback (self : JalaliMonthEnd) (dt : JalaliTimestamp) : JalaliTimestamp :=
  if self.is_on_offset dt then dt
  else
    let newYear : Int := if dt.month = 1 then dt.year - 1 else dt.year
    let newMonth : Int := if dt.month = 1 then 12 else dt.month - 1
    { year := newYear, month := newMonth, day := month_len newYear newMonth
      hour := if self.normalize then 0 else dt.hour
      minute := if self.normalize then 0 else dt.minute
      second := if self.normalize then 0 else dt.second
      microsecond := 0
      nanosecond := 0
      tzinfo := dt.tzinfo }

end JalaliMonthEnd

/-! ### offsets/quarter.py -/

/-- offsets/quarter.py `JalaliQuarterBegin`. -/
structure JalaliQuarterBegin where
  n : Int := 1
  normalize : Bool := false
deriving DecidableEq

namespace JalaliQuarterBegin

/-- quarter.py `JalaliQuarterBegin.__add__`: quarter-index arithmetic,
landing on day 1 of a quarter start month (1, 4, 7 or 10). -/
def add (self : JalaliQuarterBegin) (other : JalaliTimestamp) : JalaliTimestamp :=
  let currentQuarter : Int := (other.month - 1).fdiv 3
  let totalQuarters : Int := other.year * 4 + currentQuarter + self.n
  let newYear : Int := totalQuarters.fdiv 4
  let newQuarter : Int := totalQuarters.fmod 4
  let newMonth : Int := newQuarter * 3 + 1
  { year := newYear, month := newMonth, day := 1
    hour := if self.normalize then 0 else other.hour
    minute := if self.normalize then 0 else other.minute
    second := if self.normalize then 0 else other.second
    microsecond := if self.normalize then 0 else other.microsecond
    nanosecond := if self.normalize then 0 else other.nanosecond
    tzinfo := other.tzinfo }

/-- quarter.py `JalaliQuarterBegin.is_on_offset`:
month in `QUARTER_START_MONTHS` and day 1. -/
def is_on_offset (_self : JalaliQuarterBegin) (dt : JalaliTimestamp) : Bool :=
  (dt.month == 1 || dt.month == 4 || dt.month == 7 || dt.month == 10) && dt.day == 1

/-- quarter.py `JalaliQuarterBegin.rollforward`: identity on offset dates,
else `self.__add__(dt)`. -/
def rollforward (self : JalaliQuarterBegin) (dt : JalaliTimestamp) : JalaliTimestamp :=
  if self.is_on_offset dt then dt else self.add dt

/-- quarter.py `JalaliQuarterBegin.rollback`: identity on offset dates, else
day 1 of the current quarter start month (constructor omits
`microsecond`/`nanosecond`). -/
def rollback (self : JalaliQuarterBegin) (dt : JalaliTimestamp) : JalaliTimestamp :=
  if self.is_on_offset dt then dt
  else
    let quarterStartMonth : Int := ((dt.month - 1).fdiv 3) * 3 + 1
    { year := dt.year, month := quarterStartMonth, day := 1
      hour := if self.normalize then 0 else dt.hour
      minute := if self.normalize then 0 else dt.minute
      second := if self.normalize then 0 else dt.second
      microsecond := 0
      nanosecond := 0
      tzinfo := dt.tzinfo }

end JalaliQuarterBegin

/-- offsets/quarter.py `JalaliQuarterEnd`. -/
structure JalaliQuarterEnd where
  n : Int := 1
  normalize : Bool := false
deriving DecidableEq

namespace JalaliQuarterEnd

/-- quarter.py `JalaliQuarterEnd.__add__`: quarter-index arithmetic, landing
on the last day of a quarter end month (3, 6, 9 or 12). -/
def add (self : JalaliQuarterEnd) (other : JalaliTimestamp) : JalaliTimestamp :=
  let currentQuarter : Int := (other.month - 1).fdiv 3
  let totalQuarters : Int := other.year * 4 + currentQuarter + self.n
  let newYear : Int := totalQuarters.fdiv 4
  let newQuarter : Int := totalQuarters.fmod 4
  let newMonth : Int := (newQuarter + 1) * 3
  let newDay : Int := month_len newYear newMonth
  { year := newYear, month := newMonth, day := newDay
    hour := if self.normalize then 0 else other.hour
    minute := if self.normalize then 0 else other.minute
    second := if self.normalize then 0 else other.second
    microsecond := if self.normalize then 0 else other.microsecond
    nanosecond := if self.normalize then 0 else other.nanosecond
    tzinfo := other.tzinfo }

/-- quarter.py `JalaliQuarterEnd.is_on_offset`: month in
`QUARTER_END_MONTHS` and day equal to the month length. -/
def is_on_offset (_self : JalaliQuarterEnd) (dt : JalaliTimestamp) : Bool :=
  (dt.month == 3 || dt.month == 6 || dt.month == 9 || dt.month == 12)
    && dt.day == month_len dt.year dt.month

/-- quarter.py `JalaliQuarterEnd._get_quarter_end` (constructor omits
`microsecond`/`nanosecond`). -/
def get_quarter_end (self : JalaliQuarterEnd) (dt : JalaliTimestamp) : JalaliTimestamp :=
  let quarterEndMonth : Int := ((dt.month - 1).fdiv 3 + 1) * 3
  { year := dt.year, month := quarterEndMonth
    day := month_len dt.year quarterEndMonth
    hour := if self.normalize then 0 else dt.hour
    minute := if self.normalize then 0 else dt.minute
    second := if self.normalize then 0 else dt.second
    microsecond := 0
    nanosecond := 0
    tzinfo := dt.tzinfo }

/-- quarter.py `JalaliQuarterEnd.rollforward`. -/
def rollforward (self : JalaliQuarterEnd) (dt : JalaliTimestamp) : JalaliTimestamp :=
  if self.is_on_offset dt then dt else self.get_quarter_end dt

/-- quarter.py `JalaliQuarterEnd.rollback`: identity on offset dates, else
the end of the previous quarter (constructor omits
`microsecond`/`nanosecond`). -/
def rollback (self : JalaliQuarterEnd) (dt : JalaliTimestamp) : JalaliTimestamp :=
  if self.is_on_offset dt then dt
  else
    let currentQuarter : Int := (dt.month - 1).fdiv 3
    let newYear : Int := if currentQuarter = 0 then dt.year - 1 else dt.year
    let newMonth : Int := if currentQuarter = 0 then 12 else currentQuarter * 3
    { year := newYear, month := newMonth, day := month_len newYear newMonth
      hour := if self.normalize then 0 else dt.hour
      minute := if self.normalize then 0 else dt.minute
      second := if self.normalize then 0 else dt.second
      microsecond := 0
      nanosecond := 0
      tzinfo := dt.tzinfo }

end JalaliQuarterEnd

/-! ### offsets/year.py -/

/-- offsets/year.py `JalaliYearBegin`. -/
structure JalaliYearBegin where
  n : Int := 1
  normalize : Bool := false
deriving DecidableEq

namespace JalaliYearBegin

/-- year.py `JalaliYearBegin.__add__`: year arithmetic, landing on Nowruz. -/
def add (self : JalaliYearBegin) (other : JalaliTimestamp) : JalaliTimestamp :=
  { year := other.year + self.n, month := 1, day := 1
    hour := if self.normalize then 0 else other.hour
    minute := if self.normalize then 0 else other.minute
    second := if self.normalize then 0 else other.second
    microsecond := if self.normalize then 0 else other.microsecond
    nanosecond := if self.normalize then 0 else other.nanosecond
    tzinfo := other.tzinfo }

/-- year.py `JalaliYearBegin.is_on_offset`: month 1, day 1. -/
def is_on_offset (_self : JalaliYearBegin) (dt : JalaliTimestamp) : Bool :=
  dt.month == 1 && dt.day == 1

/-- year.py `JalaliYearBegin.rollforward`: identity on offset dates, else
`self.__add__(dt)`. -/
def rollforward (self : JalaliYearBegin) (dt : JalaliTimestamp) : JalaliTimestamp :=
  if self.is_on_offset dt then dt else self.add dt

/-- year.py `JalaliYearBegin.rollback`: identity on offset dates, else
Nowruz of the current year (constructor omits `microsecond`/`nanosecond`). -/
def rollback (self : JalaliYearBegin) (dt : JalaliTimestamp) : JalaliTimestamp :=
  if self.is_on_offset dt then dt
  else
    { year := dt.year, month := 1, day := 1
      hour := if self.normalize then 0 else dt.hour
      minute := if self.normalize then 0 else dt.minute
      second := if self.normalize then 0 else dt.second
      microsecond := 0
      nanosecond := 0
      tzinfo := dt.tzinfo }

end JalaliYearBegin

/-- offsets/year.py `JalaliYearEnd`. -/
structure JalaliYearEnd where
  n : Int := 1
  normalize : Bool := false
deriving DecidableEq

namespace JalaliYearEnd

/-- year.py `JalaliYearEnd.__add__`: year arithmetic, landing on the last
day of Esfand (30 in leap years, else 29). -/
def add (self : JalaliYearEnd) (other : JalaliTimestamp) : JalaliTimestamp :=
  let newYear : Int := other.year + self.n
  let newDay : Int := if is_leap_year newYear then 30 else 29
  { year := newYear, month := 12, day := newDay
    hour := if self.normalize then 0 else other.hour
    minute := if self.normalize then 0 else other.minute
    second := if self.normalize then 0 else other.second
    microsecond := if self.normalize then 0 else other.microsecond
    nanosecond := if self.normalize then 0 else other.nanosecond
    tzinfo := other.tzinfo }

/-- year.py `JalaliYearEnd.is_on_offset`: month 12 and day equal to the
length of Esfand. -/
def is_on_offset (_self : JalaliYearEnd) (dt : JalaliTimestamp) : Bool :=
  dt.month == 12 && dt.day == month_len dt.year 12

/-- year.py `JalaliYearEnd._get_year_end` (constructor omits
`microsecond`/`nanosecond`). -/
def get_year_end (self : JalaliYearEnd) (dt : JalaliTimestamp) : JalaliTimestamp :=
  { year := dt.year, month := 12, day := month_len dt.year 12
    hour := if self.normalize then 0 else dt.hour
    minute := if self.normalize then 0 else dt.minute
    second := if self.normalize then 0 else dt.second
    microsecond := 0
    nanosecond := 0
    tzinfo := dt.tzinfo }

/-- year.py `JalaliYearEnd.rollforward`. -/
def rollforward (self : JalaliYearEnd) (dt : JalaliTimestamp) : JalaliTimestamp :=
  if self.is_on_offset dt then dt else self.get_year_end dt

/-- year.py `JalaliYearEnd.rollback`: identity on offset dates, else the
last day of the previous year (constructor omits
`microsecond`/`nanosecond`). -/
def rollback (self : JalaliYearEnd) (dt : JalaliTimestamp) : JalaliTimestamp :=
  if self.is_on_offset dt then dt
  else
    let newYear : Int := dt.year - 1
    let newDay : Int := if is_leap_year newYear then 30 else 29
    { year := newYear, month := 12, day := newDay
      hour := if self.normalize then 0 else dt.hour
      minute := if self.normalize then 0 else dt.minute
      second := if self.normalize then 0 else dt.second
      microsecond := 0
      nanosecond := 0
      tzinfo := dt.tzinfo }

end JalaliYearEnd

/-! ### specification-side date ordering and boundary predicates -/

/-- Calendar-date order (year, then month, then day) on timestamps,
ignoring time of day; used to state the rollforward/rollback
"nearest boundary" property. -/
def dateLe (a b : JalaliTimestamp) : Prop :=
  a.year < b.year
    ∨ (a.year = b.year ∧ (a.month < b.month ∨ (a.month = b.month ∧ a.day ≤ b.day)))

/-- Strict calendar-date order on timestamps. -/
def dateLt (a b : JalaliTimestamp) : Prop :=
  a.year < b.year
    ∨ (a.year = b.year ∧ (a.month < b.month ∨ (a.month = b.month ∧ a.day < b.day)))

instance (a b : JalaliTimestamp) : Decidable (dateLe a b) := by
  unfold dateLe; infer_instance

instance (a b : JalaliTimestamp) : Decidable (dateLt a b) := by
  unfold dateLt; infer_instance

/-- `res` is the nearest date at or after `dt` (in calendar-date order)
among the valid dates satisfying the boundary predicate `onOff`. -/
def NearestOnOrAfter (onOff : JalaliTimestamp → Bool) (dt res : JalaliTimestamp) : Prop :=
  onOff res = true ∧ dateLe dt res
    ∧ ∀ c : JalaliTimestamp, valid_ts c → onOff c = true → dateLe dt c → dateLe res c

/-- `res` is the nearest date at or before `dt` (in calendar-date order)
among the valid dates satisfying the boundary predicate `onOff`. -/
def NearestOnOrBefore (onOff : JalaliTimestamp → Bool) (dt res : JalaliTimestamp) : Prop :=
  onOff res = true ∧ dateLe res dt
    ∧ ∀ c : JalaliTimestamp, valid_ts c → onOff c = true → dateLe c dt → dateLe c res

/-! ### offsets/week.py (only the record is needed here) -/

/-- offsets/week.py `JalaliWeek` (fields only; its operations route through
the Gregorian conversion service and are not needed by the claims below). -/
structure JalaliWeek where
  n : Int := 1
  normalize : Bool := false
  weekday : Int := 0
deriving DecidableEq

/-! ### offsets/aliases.py -/

/-- A constructed offset instance, as returned by the frequency parsing of
aliases.py (`offset_class(n=n)`). -/
inductive JalaliOffsetValue where
  | monthBegin (o : JalaliMonthBegin) : JalaliOffsetValue
  | monthEnd (o : JalaliMonthEnd) : JalaliOffsetValue
  | quarterBegin (o : JalaliQuarterBegin) : JalaliOffsetValue
  | quarterEnd (o : JalaliQuarterEnd) : JalaliOffsetValue
  | yearBegin (o : JalaliYearBegin) : JalaliOffsetValue
  | yearEnd (o : JalaliYearEnd) : JalaliOffsetValue
  | week (o : JalaliWeek) : JalaliOffsetValue
deriving DecidableEq

/-- An offset class, as stored in the alias registry
(`type[JalaliOffset]` values of `_JALALI_OFFSET_ALIASES`). -/
inductive OffsetClass where
  | monthBegin : OffsetClass
  | monthEnd : OffsetClass
  | quarterBegin : OffsetClass
  | quarterEnd : OffsetClass
  | yearBegin : OffsetClass
  | yearEnd : OffsetClass
  | week : OffsetClass
deriving DecidableEq

/-- Instantiation `offset_class(n=n)` with the other constructor arguments
left at their defaults. -/
def OffsetClass.construct : OffsetClass → Int → JalaliOffsetValue
  | OffsetClass.monthBegin, n => JalaliOffsetValue.monthBegin { n := n }
  | OffsetClass.monthEnd, n => JalaliOffsetValue.monthEnd { n := n }
  | OffsetClass.quarterBegin, n => JalaliOffsetValue.quarterBegin { n := n }
  | OffsetClass.quarterEnd, n => JalaliOffsetValue.quarterEnd { n := n }
  | OffsetClass.yearBegin, n => JalaliOffsetValue.yearBegin { n := n }
  | OffsetClass.yearEnd, n => JalaliOffsetValue.yearEnd { n := n }
  | OffsetClass.week, n => JalaliOffsetValue.week { n := n }

/-- The registry filled by aliases.py `_register_default_aliases`. -/
def _JALALI_OFFSET_ALIASES : List (String × OffsetClass) :=
  [("JME", OffsetClass.monthEnd), ("JMS", OffsetClass.monthBegin),
   ("JQE", OffsetClass.quarterEnd), ("JQS", OffsetClass.quarterBegin),
   ("JYE", OffsetClass.yearEnd), ("JYS", OffsetClass.yearBegin),
   ("JW", OffsetClass.week)]

/-- aliases.py `get_jalali_offset`: dictionary lookup. -/
def get_jalali_offset (a : String) : Option OffsetClass :=
  _JALALI_OFFSET_ALIASES.lookup a

/-- Error taxonomy of aliases.py `parse_jalali_frequency` (the source raises
`ValueError` with distinct messages; the spec names them `MalformedFrequency`
and `UnknownAlias`). -/
inductive FreqError where
  | malformedFrequency : FreqError
  | unknownAlias : FreqError
deriving DecidableEq

/-- Python `str.strip()`: remove leading and trailing whitespace. -/
def py_strip (cs : List Char) : List Char :=
  ((cs.dropWhile Char.isWhitespace).reverse.dropWhile Char.isWhitespace).reverse

/-- The regular expression `^(-?)(\d*)([A-Z]+)$` of
`parse_jalali_frequency`, matched against a character list: an optional
leading minus sign, a (possibly empty) digit run, then a nonempty run of
capital letters reaching the end of the string.  Since the digit and
capital-letter classes are disjoint, greedy matching is an exact model. -/
def freq_regex_match (cs : List Char) : Option (Bool × List Char × List Char) :=
  let neg : Bool := match cs with
    | '-' :: _ => true
    | _ => false
  let rest : List Char := match cs with
    | '-' :: r => r
    | _ => cs
  let ds : List Char := rest.takeWhile Char.isDigit
  let tl : List Char := rest.dropWhile Char.isDigit
  if tl ≠ [] ∧ tl.all Char.isUpper then some (neg, ds, tl) else none

/-- Decimal value of a digit run (Python `int(num_str)`). -/
def digits_to_nat (ds : List Char) : Nat :=
  ds.foldl (fun acc c => acc * 10 + (c.toNat - 48)) 0

/-- aliases.py `parse_jalali_frequency`: normalizes with
`.strip().upper()`, matches the pattern, resolves the alias through the
registry, then applies the optional multiplier and sign (default `n = 1`). -/
def parse_jalali_frequency (freq : String) : Except FreqError JalaliOffsetValue :=
  let cs : List Char := (py_strip freq.data).map Char.toUpper
  match freq_regex_match cs with
  | none => Except.error FreqError.malformedFrequency
  | some (neg, ds, alias_chars) =>
    match get_jalali_offset (String.mk alias_chars) with
    | none => Except.error FreqError.unknownAlias
    | some cls =>
      let n0 : Int := if ds = [] then 1 else (digits_to_nat ds : Int)
      Except.ok (cls.construct (if neg then -n0 else n0))

/-! ### conversion.py, modelled from the spec

The source delegates the actual Jalali/Gregorian date map to the external
jdatetime package (not part of this repository), so the map itself is
modelled from the specification, section 4.3: Jalali date to ordinal via the
oracle of 4.1/4.2 (33-year cycle), a fixed additive epoch constant, and a
standard proleptic-Gregorian ordinal algorithm.  The constant is anchored by
the concrete scenario of section 8, `(1402,1,1) = 2023-03-21`. -/

/-- Modelled from the spec: number of leap years among the first `r` years
of a 33-year cycle (`LEAP_YEAR_REMAINDERS` that are at most `r`). -/
def leap_cnt (r : Int) : Int :=
  if r < 1 then 0 else if r < 5 then 1 else if r < 9 then 2 else if r < 13 then 3
  else if r < 17 then 4 else if r < 22 then 5 else if r < 26 then 6
  else if r < 30 then 7 else 8

/-- Modelled from the spec: number of leap years `k` with `1 <= k < y`
under the 33-year oracle rule. -/
def leaps_before (y : Int) : Int :=
  8 * ((y - 1).fdiv 33) + leap_cnt ((y - 1).fmod 33)

/-- Modelled from the spec: cumulative days before Jalali month `m`
(months 1..7 start at multiples of 31, months 7..12 continue in 30-day
steps; identical to the `MONTH_STARTS` table). -/
def jalali_month_start (m : Int) : Int :=
  if m ≤ 7 then 31 * (m - 1) else 186 + 30 * (m - 7)

/-- Modelled from the spec: days from the Jalali epoch (day 0 is
1 Farvardin of year 1) to the given Jalali date, using the 33-year oracle. -/
def jalali_day_number (y m d : Int) : Int :=
  365 * (y - 1) + leaps_before y + jalali_month_start m + (d - 1)

/-- Modelled from the spec: for a day offset `r` inside a 33-year cycle
(`0 <= r < 12053`), the cycle year `j` containing it: the largest `j` with
`365 * j + leap_cnt j <= r`; located in O(1) as required by the spec. -/
def year_in_cycle (r : Int) : Int :=
  let j0 : Int := r.fdiv 365
  if 365 * j0 + leap_cnt j0 ≤ r then j0 else j0 - 1

/-- Modelled from the spec: month and day of a 0-based day-of-year offset
(months 1..6 are 31-day blocks, 7..11 are 30-day blocks, the rest is
Esfand). -/
def jalali_md_extract (t : Int) : Int × Int :=
  if t < 186 then (t.fdiv 31 + 1, t.fmod 31 + 1)
  else if t - 186 < 150 then ((t - 186).fdiv 30 + 7, (t - 186).fmod 30 + 1)
  else (12, t - 336 + 1)

/-- Modelled from the spec: inverse of `jalali_day_number`. -/
def jalali_from_day_number (n : Int) : Int × Int × Int :=
  let q : Int := n.fdiv 12053
  let r : Int := n.fmod 12053
  let j : Int := year_in_cycle r
  let t : Int := r - (365 * j + leap_cnt j)
  (33 * q + j + 1, (jalali_md_extract t).1, (jalali_md_extract t).2)

/-- Modelled from the spec: proleptic-Gregorian leap year rule. -/
def g_is_leap (y : Int) : Bool :=
  (y.fmod 4 = 0 ∧ ¬ y.fmod 100 = 0) ∨ y.fmod 400 = 0

/-- Modelled from the spec: the leap-day indicator of a Gregorian year
(1 in leap years, 0 otherwise). -/
def g_li (y : Int) : Int :=
  if g_is_leap y then 1 else 0

/-- Modelled from the spec: cumulative days before Gregorian month `m`,
given the leap-day indicator `li` of the year. -/
def g_month_start (li : Int) (m : Int) : Int :=
  if m ≤ 1 then 0 else if m = 2 then 31 else if m = 3 then 59 + li
  else if m = 4 then 90 + li else if m = 5 then 120 + li else if m = 6 then 151 + li
  else if m = 7 then 181 + li else if m = 8 then 212 + li else if m = 9 then 243 + li
  else if m = 10 then 273 + li else if m = 11 then 304 + li else 334 + li

/-- Modelled from the spec: length of Gregorian month `m`, given the
leap-day indicator `li` of the year. -/
def g_month_len (li : Int) (m : Int) : Int :=
  if m = 2 then 28 + li
  else if m = 4 ∨ m = 6 ∨ m = 9 ∨ m = 11 then 30 else 31

/-- Modelled from the spec: Gregorian date validity. -/
def g_valid_date (y m d : Int) : Prop :=
  1 ≤ m ∧ m ≤ 12 ∧ 1 ≤ d ∧ d ≤ g_month_len (g_li y) m

instance (y m d : Int) : Decidable (g_valid_date y m d) := by
  unfold g_valid_date; infer_instance

/-- Modelled from the spec: days from the Gregorian epoch (day 0 is
January 1 of year 1) to the given Gregorian date (standard proleptic
ordinal). -/
def g_day_number (y m d : Int) : Int :=
  365 * (y - 1) + (y - 1).fdiv 4 - (y - 1).fdiv 100 + (y - 1).fdiv 400
    + g_month_start (g_li y) m + (d - 1)

/-- Modelled from the spec: month and day of a 0-based Gregorian
day-of-year offset, given the leap-day indicator `li`. -/
def g_md_extract (li t : Int) : Int × Int :=
  if t < 31 then (1, t + 1)
  else if t < 59 + li then (2, t - 31 + 1)
  else if t < 90 + li then (3, t - (59 + li) + 1)
  else if t < 120 + li then (4, t - (90 + li) + 1)
  else if t < 151 + li then (5, t - (120 + li) + 1)
  else if t < 181 + li then (6, t - (151 + li) + 1)
  else if t < 212 + li then (7, t - (181 + li) + 1)
  else if t < 243 + li then (8, t - (212 + li) + 1)
  else if t < 273 + li then (9, t - (243 + li) + 1)
  else if t < 304 + li then (10, t - (273 + li) + 1)
  else if t < 334 + li then (11, t - (304 + li) + 1)
  else (12, t - (334 + li) + 1)

/-- Modelled from the spec: the 400-year-cycle index of a Gregorian
ordinal (first stage of the inverse of `g_day_number`). -/
def g_q400 (n : Int) : Int := n.fdiv 146097

/-- Modelled from the spec: the day offset inside the 400-year cycle. -/
def g_r1 (n : Int) : Int := n.fmod 146097

/-- Modelled from the spec: the century inside the 400-year cycle, with
the usual clamp of the quotient at 3. -/
def g_q100 (n : Int) : Int := min 3 ((g_r1 n).fdiv 36524)

/-- Modelled from the spec: the day offset inside the century. -/
def g_r2 (n : Int) : Int := g_r1 n - 36524 * g_q100 n

/-- Modelled from the spec: the 4-year block inside the century. -/
def g_q4 (n : Int) : Int := (g_r2 n).fdiv 1461

/-- Modelled from the spec: the day offset inside the 4-year block. -/
def g_r3 (n : Int) : Int := (g_r2 n).fmod 1461

/-- Modelled from the spec: the year inside the 4-year block, with the
usual clamp of the quotient at 3. -/
def g_q1 (n : Int) : Int := min 3 ((g_r3 n).fdiv 365)

/-- Modelled from the spec: the 0-based day of the year. -/
def g_r4 (n : Int) : Int := g_r3 n - 365 * g_q1 n

/-- Modelled from the spec: the Gregorian year containing ordinal `n`. -/
def g_year (n : Int) : Int :=
  400 * g_q400 n + 100 * g_q100 n + 4 * g_q4 n + g_q1 n + 1

/-- Modelled from the spec: inverse of `g_day_number`, by 400/100/4/1-year
cycle decomposition with the usual clamping of the 100-year and 1-year
quotients. -/
def g_from_day_number (n : Int) : Int × Int × Int :=
  (g_year n, (g_md_extract (g_li (g_year n)) (g_r4 n)).1,
    (g_md_extract (g_li (g_year n)) (g_r4 n)).2)

/-- Modelled from the spec: the fixed additive constant relating the two
epochs, anchored by `(1402,1,1) = 2023-03-21`
(`g_day_number 2023 3 21 - jalali_day_number 1402 1 1`). -/
def JG_OFFSET : Int := 226894

/-- Modelled from the spec: the scalar Jalali-to-Gregorian date map
(composition through the ordinal domain). -/
def jalali_to_gregorian_conv (y m d : Int) : Int × Int × Int :=
  g_from_day_number (jalali_day_number y m d + JG_OFFSET)

/-- Modelled from the spec: the scalar Gregorian-to-Jalali date map. -/
def gregorian_to_jalali_conv (gy gm gd : Int) : Int × Int × Int :=
  jalali_from_day_number (g_day_number gy gm gd - JG_OFFSET)

/-- conversion.py `_COMMON_JALALI_YEAR_START`/`_COMMON_JALALI_YEAR_END`:
the year window covered by the lookup cache. -/
def in_common_window (y : Int) : Prop := 1300 ≤ y ∧ y ≤ 1500

instance (y : Int) : Decidable (in_common_window y) := by
  unfold in_common_window; infer_instance

/-- The Jalali-to-Gregorian lookup table built by
`_ensure_lookup_tables`: it contains exactly the oracle-valid dates of the
common window, mapped by the conversion. -/
def jalali_lookup_table (y m d : Int) : Option (Int × Int × Int) :=
  if in_common_window y ∧ validate_jalali_date y m d = Except.ok true then
    some (jalali_to_gregorian_conv y m d)
  else none

/-- The Gregorian-to-Jalali lookup table built by `_ensure_lookup_tables`:
it contains exactly the images of the windowed valid Jalali dates, mapped
back to them. -/
def gregorian_lookup_table (gy gm gd : Int) : Option (Int × Int × Int) :=
  if in_common_window (gregorian_to_jalali_conv gy gm gd).1
      ∧ validate_jalali_date (gregorian_to_jalali_conv gy gm gd).1
          (gregorian_to_jalali_conv gy gm gd).2.1
          (gregorian_to_jalali_conv gy gm gd).2.2 = Except.ok true
      ∧ jalali_to_gregorian_conv (gregorian_to_jalali_conv gy gm gd).1
          (gregorian_to_jalali_conv gy gm gd).2.1
          (gregorian_to_jalali_conv gy gm gd).2.2 = (gy, gm, gd) then
    some (gregorian_to_jalali_conv gy gm gd)
  else none

/-- conversion.py `jalali_to_gregorian_scalar`: when the lookup tables have
been published (`_LOOKUP_READY`), consult the cache first and fall back to
the scalar conversion on a miss; otherwise convert directly. -/
def jalali_to_gregorian_scalar (lookupReady : Bool) (y m d : Int) : Int × Int × Int :=
  match (if lookupReady then jalali_lookup_table y m d else none) with
  | some g => g
  | none => jalali_to_gregorian_conv y m d

/-- conversion.py `gregorian_to_jalali_scalar`. -/
def gregorian_to_jalali_scalar (lookupReady : Bool) (gy gm gd : Int) : Int × Int × Int :=
  match (if lookupReady then gregorian_lookup_table gy gm gd else none) with
  | some j => j
  | none => gregorian_to_jalali_conv gy gm gd

/-! ### timestamp.py comparison through the Gregorian domain -/

/-- Modelled from the spec: the epoch instant of the pandas timestamp
produced by `JalaliTimestamp.to_gregorian()`, in nanoseconds.  Ordering
comparisons of the source go through such instants. -/
def epoch_nanoseconds (t : JalaliTimestamp) : Int :=
  ((((jalali_day_number t.year t.month t.day + JG_OFFSET) * 24 + t.hour) * 60
      + t.minute) * 60 + t.second) * 1000000000
    + t.microsecond * 1000 + t.nanosecond

/-- timestamp.py `JalaliTimestamp.__lt__`: comparison of the converted
Gregorian instants. -/
def ts_lt (a b : JalaliTimestamp) : Bool :=
  decide (epoch_nanoseconds a < epoch_nanoseconds b)

/-- The five time-of-day components of a timestamp, as one tuple. -/
def time_fields (t : JalaliTimestamp) : Int × Int × Int × Int × Int :=
  (t.hour, t.minute, t.second, t.microsecond, t.nanosecond)

/-- The hour/minute/second components of a timestamp. -/
def hms_fields (t : JalaliTimestamp) : Int × Int × Int :=
  (t.hour, t.minute, t.second)

/-! ## Helper lemmas -/

theorem fdiv_eq_div (a b : Int) (h : 0 ≤ b) : a.fdiv b = a / b :=
  Int.fdiv_eq_ediv a h

theorem fmod_eq_mod (a b : Int) (h : 0 ≤ b) : a.fmod b = a % b :=
  Int.fmod_eq_emod a h

/-- The 33-year leap rule as an arithmetic disjunction. -/
theorem is_leap_year_iff (y : Int) :
    is_leap_year y = true ↔
      (y % 33 = 1 ∨ y % 33 = 5 ∨ y % 33 = 9 ∨ y % 33 = 13
        ∨ y % 33 = 17 ∨ y % 33 = 22 ∨ y % 33 = 26 ∨ y % 33 = 30) := by
  have h : y.fmod 33 = y % 33 := fmod_eq_mod y 33 (by norm_num)
  simp [is_leap_year, LEAP_YEAR_REMAINDERS, h]

/-- The month length table, written arithmetically (months in 1..12). -/
theorem month_len_eq (y m : Int) (h1 : 1 ≤ m) (h2 : m ≤ 12) :
    month_len y m =
      if m ≤ 6 then 31 else if m ≤ 11 then 30
      else if is_leap_year y then 30 else 29 := by
  interval_cases m <;> simp [month_len, MONTH_LENGTHS]

/-- Month lengths are between 29 and 31. -/
theorem month_len_bounds (y m : Int) (h1 : 1 ≤ m) (h2 : m ≤ 12) :
    29 ≤ month_len y m ∧ month_len y m ≤ 31 := by
  rw [month_len_eq y m h1 h2]
  split_ifs <;> omega

/-- The shape of `validate_jalali_date` as a nested conditional. -/
theorem validate_shape (y m d : Int) :
    validate_jalali_date y m d =
      if 1 ≤ m ∧ m ≤ 12 then
        (if 1 ≤ d ∧ d ≤ month_len y m then Except.ok true
          else Except.error DateError.invalidDate)
      else Except.error DateError.invalidMonth := by
  unfold validate_jalali_date days_in_month
  split_ifs <;> simp_all

/-- Characterization of a passing `validate_jalali_date`. -/
theorem validate_ok_iff (y m d : Int) :
    validate_jalali_date y m d = Except.ok true ↔
      (1 ≤ m ∧ m ≤ 12 ∧ 1 ≤ d ∧ d ≤ month_len y m) := by
  rw [validate_shape]
  split_ifs <;> simp_all

/-! ## Claim C1 -/

/-- Claim C1 (code bug): the claim states that for every valid Jalali date
the ordinal converter round-trips exactly.  The code violates it: the
validation oracle uses the 33-year leap rule while `jalali_to_jdn` and
`jdn_to_jalali` use the 2820-year cycle, and the two rules disagree, for
example, on year 1300.  The date (1300, 12, 30) passes
`validate_jalali_date` (1300 is a 33-rule leap year), yet the 2820-cycle
formula gives it the same JDN as (1301, 1, 1), so the round trip returns
(1301, 1, 1).  The repository asserts the round-trip law in its own
property-based test suite (tests/property/test_calendar.py,
`test_jdn_roundtrip`, over exactly this year range), so the claim reflects
the intent and the code is wrong. -/
theorem C1_jdn_roundtrip_fails_at_1300_12_30 :
    validate_jalali_date 1300 12 30 = Except.ok true
      ∧ jalali_to_jdn 1300 12 30 = jalali_to_jdn 1301 1 1
      ∧ jdn_to_jalali (jalali_to_jdn 1300 12 30) = (1301, 1, 1) := by
  refine ⟨by decide, by decide, by decide⟩

/-! ## Claim C5 -/

/-- Claim C5 counterexample: the claim states that `jalali_to_jdn` fails
with `InvalidDate` whenever its input violates the oracle's day bound.  In
the code `jalali_to_jdn` performs no validation at all: the invalid date
(1402, 12, 30) (1402 is not a leap year, so Esfand has 29 days) is accepted
and silently aliases to the JDN of the valid date (1403, 1, 1). -/
theorem C5_counterexample_no_failure_on_invalid :
    validate_jalali_date 1402 12 30 = Except.error DateError.invalidDate
      ∧ jalali_to_jdn 1402 12 30 = jalali_to_jdn 1403 1 1 := by
  refine ⟨by decide, by decide⟩

/-- Claim C5 (amended): `jalali_to_jdn` itself is total and performs no
validation; the day-bound check raising `InvalidDate` lives in the separate
`validate_jalali_date`, which succeeds exactly on the oracle's bounds,
fails with `InvalidMonth` exactly when the month is outside 1..12, and
fails with `InvalidDate` exactly when the month is in range but the day is
outside 1..days_in_month(year, month). -/
theorem C5_validate_characterization :
    ∀ y m d : Int,
      (validate_jalali_date y m d = Except.ok true ↔
        (1 ≤ m ∧ m ≤ 12 ∧ 1 ≤ d ∧ d ≤ month_len y m))
      ∧ (validate_jalali_date y m d = Except.error DateError.invalidMonth ↔
        ¬ (1 ≤ m ∧ m ≤ 12))
      ∧ (validate_jalali_date y m d = Except.error DateError.invalidDate ↔
        ((1 ≤ m ∧ m ≤ 12) ∧ ¬ (1 ≤ d ∧ d ≤ month_len y m))) := by
  intro y m d
  refine ⟨validate_ok_iff y m d, ?_, ?_⟩ <;>
    · rw [validate_shape]
      split_ifs <;> simp_all

/-! ## Claim C6 -/

/-- Claim C6 counterexample: the claim states that every ordering
comparison of the Missing sentinel, including against another Missing, is
false.  In the code `_JalaliNaTType.__le__` returns
`isinstance(other, _JalaliNaTType)`, so `JalaliNaT <= JalaliNaT` is true
(and likewise `>=`). -/
theorem C6_counterexample_le_missing_true :
    JalaliNaT.nat_le JalaliValue.missing = true := by decide

/-- Claim C6 (amended): for the Missing sentinel, equality with another
Missing is true; the strict comparisons `<` and `>` are always false, while
`<=` and `>=` are false against any timestamp but true against another
Missing (mirroring equality); every arithmetic operation returns Missing;
and the derived accessors return an explicit undefined signal (`nan` for
the numeric ones, `False` for the boolean ones) instead of raising. -/
theorem C6_missing_semantics :
    (∀ v, JalaliNaT.nat_eq v = true ↔ v = JalaliValue.missing)
    ∧ (∀ v, JalaliNaT.nat_ne v = true ↔ v ≠ JalaliValue.missing)
    ∧ (∀ v, JalaliNaT.nat_lt v = false)
    ∧ (∀ v, JalaliNaT.nat_gt v = false)
    ∧ (∀ v, JalaliNaT.nat_le v = true ↔ v = JalaliValue.missing)
    ∧ (∀ v, JalaliNaT.nat_ge v = true ↔ v = JalaliValue.missing)
    ∧ (∀ x : Int, JalaliNaT.nat_add x = JalaliValue.missing)
    ∧ (∀ x : Int, JalaliNaT.nat_sub x = JalaliValue.missing)
    ∧ JalaliNaT.nat_year = PyScalar.nan
    ∧ JalaliNaT.nat_month = PyScalar.nan
    ∧ JalaliNaT.nat_day = PyScalar.nan
    ∧ JalaliNaT.nat_quarter = PyScalar.nan
    ∧ JalaliNaT.nat_dayofyear = PyScalar.nan
    ∧ JalaliNaT.nat_days_in_month = PyScalar.nan
    ∧ JalaliNaT.nat_is_leap_year = false
    ∧ JalaliNaT.nat_is_month_start = false := by
  refine ⟨?_, ?_, fun v => rfl, fun v => rfl, ?_, ?_, fun x => rfl, fun x => rfl,
    rfl, rfl, rfl, rfl, rfl, rfl, rfl, rfl⟩ <;>
    · intro v
      cases v <;> simp [JalaliNaT.nat_eq, JalaliNaT.nat_ne, JalaliNaT.nat_le, JalaliNaT.nat_ge]

/-! ## Claim C3 -/

theorem days_in_month_ok (y m : Int) (h1 : 1 ≤ m) (h2 : m ≤ 12) :
    days_in_month y m = Except.ok (month_len y m) := by
  unfold days_in_month
  rw [if_pos ⟨h1, h2⟩]

theorem fmod12_bounds (a : Int) : 0 ≤ a.fmod 12 ∧ a.fmod 12 < 12 := by
  rw [fmod_eq_mod a 12 (by norm_num)]; omega

theorem fmod4_bounds (a : Int) : 0 ≤ a.fmod 4 ∧ a.fmod 4 < 4 := by
  rw [fmod_eq_mod a 4 (by norm_num)]; omega

/-- Claim C3 (confirmed): for every timestamp and every period count `n`
(and either value of `normalize`), offset application lands exactly on the
variant's boundary: `JalaliMonthBegin` on day 1; `JalaliMonthEnd` on the
day equalling `days_in_month` of the result; `JalaliQuarterBegin` on day 1
of a month in {1,4,7,10}; `JalaliQuarterEnd` on the last day of a month in
{3,6,9,12}; `JalaliYearEnd` on month 12 with day 30 or 29 according to
`is_leap_year` of the result year. -/
theorem C3_offset_boundary_laws :
    ∀ (n : Int) (norm : Bool) (ts : JalaliTimestamp),
      ((JalaliMonthBegin.mk n norm).add ts).day = 1
      ∧ days_in_month ((JalaliMonthEnd.mk n norm).add ts).year
          ((JalaliMonthEnd.mk n norm).add ts).month
          = Except.ok ((JalaliMonthEnd.mk n norm).add ts).day
      ∧ (((JalaliQuarterBegin.mk n norm).add ts).month = 1
          ∨ ((JalaliQuarterBegin.mk n norm).add ts).month = 4
          ∨ ((JalaliQuarterBegin.mk n norm).add ts).month = 7
          ∨ ((JalaliQuarterBegin.mk n norm).add ts).month = 10)
      ∧ ((JalaliQuarterBegin.mk n norm).add ts).day = 1
      ∧ (((JalaliQuarterEnd.mk n norm).add ts).month = 3
          ∨ ((JalaliQuarterEnd.mk n norm).add ts).month = 6
          ∨ ((JalaliQuarterEnd.mk n norm).add ts).month = 9
          ∨ ((JalaliQuarterEnd.mk n norm).add ts).month = 12)
      ∧ days_in_month ((JalaliQuarterEnd.mk n norm).add ts).year
          ((JalaliQuarterEnd.mk n norm).add ts).month
          = Except.ok ((JalaliQuarterEnd.mk n norm).add ts).day
      ∧ ((JalaliYearEnd.mk n norm).add ts).month = 12
      ∧ ((JalaliYearEnd.mk n norm).add ts).day
          = (if is_leap_year ((JalaliYearEnd.mk n norm).add ts).year then 30 else 29) := by
  intro n norm ts
  have h12 := fmod12_bounds (ts.year * 12 + ts.month - 1 + n)
  have h4 := fmod4_bounds (ts.year * 4 + (ts.month - 1).fdiv 3 + n)
  refine ⟨rfl, ?_, ?_, rfl, ?_, ?_, rfl, rfl⟩
  · exact days_in_month_ok _ _
      (by show (1:Int) ≤ (ts.year * 12 + ts.month - 1 + n).fmod 12 + 1; omega)
      (by show (ts.year * 12 + ts.month - 1 + n).fmod 12 + 1 ≤ (12:Int); omega)
  · show ((ts.year * 4 + (ts.month - 1).fdiv 3 + n).fmod 4 * 3 + 1 = 1
      ∨ (ts.year * 4 + (ts.month - 1).fdiv 3 + n).fmod 4 * 3 + 1 = 4
      ∨ (ts.year * 4 + (ts.month - 1).fdiv 3 + n).fmod 4 * 3 + 1 = 7
      ∨ (ts.year * 4 + (ts.month - 1).fdiv 3 + n).fmod 4 * 3 + 1 = 10)
    omega
  · show (((ts.year * 4 + (ts.month - 1).fdiv 3 + n).fmod 4 + 1) * 3 = 3
      ∨ ((ts.year * 4 + (ts.month - 1).fdiv 3 + n).fmod 4 + 1) * 3 = 6
      ∨ ((ts.year * 4 + (ts.month - 1).fdiv 3 + n).fmod 4 + 1) * 3 = 9
      ∨ ((ts.year * 4 + (ts.month - 1).fdiv 3 + n).fmod 4 + 1) * 3 = 12)
    omega
  · exact days_in_month_ok _ _
      (by show (1:Int) ≤ ((ts.year * 4 + (ts.month - 1).fdiv 3 + n).fmod 4 + 1) * 3; omega)
      (by show ((ts.year * 4 + (ts.month - 1).fdiv 3 + n).fmod 4 + 1) * 3 ≤ (12:Int); omega)

/-! ## Claim C10 -/

/-- Claim C10 (confirmed): an offset constructed with `n = 0` snaps to the
boundary of the current period rather than acting as the identity:
`JalaliMonthBegin(0)` yields day 1 of the same month, `JalaliQuarterBegin(0)`
yields day 1 of the start month of the timestamp's quarter, and
`JalaliYearEnd(0)` yields the last day of Esfand of the same year; on the
non-boundary date (1402, 6, 15) this is a genuine change. -/
theorem C10_zero_period_snaps_to_boundary :
    ∀ ts : JalaliTimestamp, valid_ts ts →
      ((JalaliMonthBegin.mk 0 false).add ts
        = { year := ts.year, month := ts.month, day := 1, hour := ts.hour,
            minute := ts.minute, second := ts.second, microsecond := ts.microsecond,
            nanosecond := ts.nanosecond, tzinfo := ts.tzinfo })
      ∧ ((JalaliQuarterBegin.mk 0 false).add ts
        = { year := ts.year, month := (quarter_of_month ts.month - 1) * 3 + 1, day := 1,
            hour := ts.hour, minute := ts.minute, second := ts.second,
            microsecond := ts.microsecond, nanosecond := ts.nanosecond,
            tzinfo := ts.tzinfo })
      ∧ ((JalaliYearEnd.mk 0 false).add ts
        = { year := ts.year, month := 12,
            day := if is_leap_year ts.year then 30 else 29,
            hour := ts.hour, minute := ts.minute, second := ts.second,
            microsecond := ts.microsecond, nanosecond := ts.nanosecond,
            tzinfo := ts.tzinfo })
      ∧ (JalaliMonthBegin.mk 0 false).add { year := 1402, month := 6, day := 15 }
          ≠ { year := 1402, month := 6, day := 15 } := by
  intro ts hv
  have hm : 1 ≤ ts.month ∧ ts.month ≤ 12 := by
    have h := (validate_ok_iff ts.year ts.month ts.day).mp hv.1
    exact ⟨h.1, h.2.1⟩
  have hq3 : 0 ≤ (ts.month - 1).fdiv 3 ∧ (ts.month - 1).fdiv 3 ≤ 3 := by
    rw [fdiv_eq_div _ 3 (by norm_num)]; omega
  refine ⟨?_, ?_, ?_, by decide⟩
  · refine JalaliTimestamp.ext ?_ ?_ rfl rfl rfl rfl rfl rfl rfl
    · show (ts.year * 12 + ts.month - 1 + 0).fdiv 12 = ts.year
      rw [fdiv_eq_div _ 12 (by norm_num)]; omega
    · show (ts.year * 12 + ts.month - 1 + 0).fmod 12 + 1 = ts.month
      rw [fmod_eq_mod _ 12 (by norm_num)]; omega
  · refine JalaliTimestamp.ext ?_ ?_ rfl rfl rfl rfl rfl rfl rfl
    · show (ts.year * 4 + (ts.month - 1).fdiv 3 + 0).fdiv 4 = ts.year
      rw [fdiv_eq_div _ 4 (by norm_num)]; omega
    · show (ts.year * 4 + (ts.month - 1).fdiv 3 + 0).fmod 4 * 3 + 1
          = (quarter_of_month ts.month - 1) * 3 + 1
      unfold quarter_of_month
      rw [fmod_eq_mod _ 4 (by norm_num)]; omega
  · refine JalaliTimestamp.ext (by show ts.year + 0 = ts.year; omega) rfl ?_ rfl rfl rfl rfl rfl rfl
    show (if is_leap_year (ts.year + 0) then (30:Int) else 29)
        = (if is_leap_year ts.year then (30:Int) else 29)
    rw [Int.add_zero]

/-! ## Claim C8 -/

/-- Claim C8 counterexample: the claim states that with `normalize = false`
rollback leaves the microsecond component unchanged; but
`JalaliMonthBegin.rollback` rebuilds the timestamp without passing
`microsecond` (or `nanosecond`), so an input microsecond of 7 comes out
as 0. -/
theorem C8_counterexample_rollback_drops_microsecond :
    ((JalaliMonthBegin.mk 1 false).rollback
        { year := 1402, month := 6, day := 15, hour := 1, minute := 2, second := 3,
          microsecond := 7, nanosecond := 9 }).microsecond
      ≠ ({ year := 1402, month := 6, day := 15, hour := 1, minute := 2, second := 3,
              microsecond := 7, nanosecond := 9 } : JalaliTimestamp).microsecond := by
  decide

/-- Claim C8 (amended): for the six Begin/End calendar offset variants
(the week variant routes through the external conversion service and is out
of scope here):

* `apply` (`__add__`) with `normalize = false` preserves all five
  time-of-day components, and with `normalize = true` yields midnight;
* `rollforward` and `rollback` return the input unchanged (time of day
  included, regardless of `normalize`) whenever the date is already on the
  boundary;
* off the boundary with `normalize = false`, the hour/minute/second
  components are preserved by every roll operation, and the Begin variants'
  `rollforward` (which delegates to `apply`) also preserves microsecond and
  nanosecond, but the End variants' `rollforward` and every variant's
  `rollback` rebuild the timestamp without those two fields, resetting
  microsecond and nanosecond to 0;
* off the boundary with `normalize = true`, every roll operation yields
  midnight. -/
theorem C8_time_of_day_effects :
    ∀ (n : Int) (norm : Bool) (ts : JalaliTimestamp),
      (time_fields ((JalaliMonthBegin.mk n false).add ts) = time_fields ts
        ∧ time_fields ((JalaliMonthEnd.mk n false).add ts) = time_fields ts
        ∧ time_fields ((JalaliQuarterBegin.mk n false).add ts) = time_fields ts
        ∧ time_fields ((JalaliQuarterEnd.mk n false).add ts) = time_fields ts
        ∧ time_fields ((JalaliYearBegin.mk n false).add ts) = time_fields ts
        ∧ time_fields ((JalaliYearEnd.mk n false).add ts) = time_fields ts)
      ∧ (time_fields ((JalaliMonthBegin.mk n true).add ts) = (0, 0, 0, 0, 0)
        ∧ time_fields ((JalaliMonthEnd.mk n true).add ts) = (0, 0, 0, 0, 0)
        ∧ time_fields ((JalaliQuarterBegin.mk n true).add ts) = (0, 0, 0, 0, 0)
        ∧ time_fields ((JalaliQuarterEnd.mk n true).add ts) = (0, 0, 0, 0, 0)
        ∧ time_fields ((JalaliYearBegin.mk n true).add ts) = (0, 0, 0, 0, 0)
        ∧ time_fields ((JalaliYearEnd.mk n true).add ts) = (0, 0, 0, 0, 0))
      ∧ (((JalaliMonthBegin.mk n norm).is_on_offset ts = true →
            (JalaliMonthBegin.mk n norm).rollforward ts = ts
              ∧ (JalaliMonthBegin.mk n norm).rollback ts = ts)
        ∧ ((JalaliMonthEnd.mk n norm).is_on_offset ts = true →
            (JalaliMonthEnd.mk n norm).rollforward ts = ts
              ∧ (JalaliMonthEnd.mk n norm).rollback ts = ts)
        ∧ ((JalaliQuarterBegin.mk n norm).is_on_offset ts = true →
            (JalaliQuarterBegin.mk n norm).rollforward ts = ts
              ∧ (JalaliQuarterBegin.mk n norm).rollback ts = ts)
        ∧ ((JalaliQuarterEnd.mk n norm).is_on_offset ts = true →
            (JalaliQuarterEnd.mk n norm).rollforward ts = ts
              ∧ (JalaliQuarterEnd.mk n norm).rollback ts = ts)
        ∧ ((JalaliYearBegin.mk n norm).is_on_offset ts = true →
            (JalaliYearBegin.mk n norm).rollforward ts = ts
              ∧ (JalaliYearBegin.mk n norm).rollback ts = ts)
        ∧ ((JalaliYearEnd.mk n norm).is_on_offset ts = true →
            (JalaliYearEnd.mk n norm).rollforward ts = ts
              ∧ (JalaliYearEnd.mk n norm).rollback ts = ts))
      ∧ (((JalaliMonthBegin.mk n false).is_on_offset ts = false →
            time_fields ((JalaliMonthBegin.mk n false).rollforward ts) = time_fields ts
              ∧ hms_fields ((JalaliMonthBegin.mk n false).rollback ts) = hms_fields ts
              ∧ ((JalaliMonthBegin.mk n false).rollback ts).microsecond = 0
              ∧ ((JalaliMonthBegin.mk n false).rollback ts).nanosecond = 0)
        ∧ ((JalaliMonthEnd.mk n false).is_on_offset ts = false →
            hms_fields ((JalaliMonthEnd.mk n false).rollforward ts) = hms_fields ts
              ∧ ((JalaliMonthEnd.mk n false).rollforward ts).microsecond = 0
              ∧ ((JalaliMonthEnd.mk n false).rollforward ts).nanosecond = 0
              ∧ hms_fields ((JalaliMonthEnd.mk n false).rollback ts) = hms_fields ts
              ∧ ((JalaliMonthEnd.mk n false).rollback ts).microsecond = 0
              ∧ ((JalaliMonthEnd.mk n false).rollback ts).nanosecond = 0)
        ∧ ((JalaliQuarterBegin.mk n false).is_on_offset ts = false →
            time_fields ((JalaliQuarterBegin.mk n false).rollforward ts) = time_fields ts
              ∧ hms_fields ((JalaliQuarterBegin.mk n false).rollback ts) = hms_fields ts
              ∧ ((JalaliQuarterBegin.mk n false).rollback ts).microsecond = 0
              ∧ ((JalaliQuarterBegin.mk n false).rollback ts).nanosecond = 0)
        ∧ ((JalaliQuarterEnd.mk n false).is_on_offset ts = false →
            hms_fields ((JalaliQuarterEnd.mk n false).rollforward ts) = hms_fields ts
              ∧ ((JalaliQuarterEnd.mk n false).rollforward ts).microsecond = 0
              ∧ ((JalaliQuarterEnd.mk n false).rollforward ts).nanosecond = 0
              ∧ hms_fields ((JalaliQuarterEnd.mk n false).rollback ts) = hms_fields ts
              ∧ ((JalaliQuarterEnd.mk n false).rollback ts).microsecond = 0
              ∧ ((JalaliQuarterEnd.mk n false).rollback ts).nanosecond = 0)
        ∧ ((JalaliYearBegin.mk n false).is_on_offset ts = false →
            time_fields ((JalaliYearBegin.mk n false).rollforward ts) = time_fields ts
              ∧ hms_fields ((JalaliYearBegin.mk n false).rollback ts) = hms_fields ts
              ∧ ((JalaliYearBegin.mk n false).rollback ts).microsecond = 0
              ∧ ((JalaliYearBegin.mk n false).rollback ts).nanosecond = 0)
        ∧ ((JalaliYearEnd.mk n false).is_on_offset ts = false →
            hms_fields ((JalaliYearEnd.mk n false).rollforward ts) = hms_fields ts
              ∧ ((JalaliYearEnd.mk n false).rollforward ts).microsecond = 0
              ∧ ((JalaliYearEnd.mk n false).rollforward ts).nanosecond = 0
              ∧ hms_fields ((JalaliYearEnd.mk n false).rollback ts) = hms_fields ts
              ∧ ((JalaliYearEnd.mk n false).rollback ts).microsecond = 0
              ∧ ((JalaliYearEnd.mk n false).rollback ts).nanosecond = 0))
      ∧ (((JalaliMonthBegin.mk n true).is_on_offset ts = false →
            time_fields ((JalaliMonthBegin.mk n true).rollforward ts) = (0, 0, 0, 0, 0)
              ∧ time_fields ((JalaliMonthBegin.mk n true).rollback ts) = (0, 0, 0, 0, 0))
        ∧ ((JalaliMonthEnd.mk n true).is_on_offset ts = false →
            time_fields ((JalaliMonthEnd.mk n true).rollforward ts) = (0, 0, 0, 0, 0)
              ∧ time_fields ((JalaliMonthEnd.mk n true).rollback ts) = (0, 0, 0, 0, 0))
        ∧ ((JalaliQuarterBegin.mk n true).is_on_offset ts = false →
            time_fields ((JalaliQuarterBegin.mk n true).rollforward ts) = (0, 0, 0, 0, 0)
              ∧ time_fields ((JalaliQuarterBegin.mk n true).rollback ts) = (0, 0, 0, 0, 0))
        ∧ ((JalaliQuarterEnd.mk n true).is_on_offset ts = false →
            time_fields ((JalaliQuarterEnd.mk n true).rollforward ts) = (0, 0, 0, 0, 0)
              ∧ time_fields ((JalaliQuarterEnd.mk n true).rollback ts) = (0, 0, 0, 0, 0))
        ∧ ((JalaliYearBegin.mk n true).is_on_offset ts = false →
            time_fields ((JalaliYearBegin.mk n true).rollforward ts) = (0, 0, 0, 0, 0)
              ∧ time_fields ((JalaliYearBegin.mk n true).rollback ts) = (0, 0, 0, 0, 0))
        ∧ ((JalaliYearEnd.mk n true).is_on_offset ts = false →
            time_fields ((JalaliYearEnd.mk n true).rollforward ts) = (0, 0, 0, 0, 0)
              ∧ time_fields ((JalaliYearEnd.mk n true).rollback ts) = (0, 0, 0, 0, 0))) := by
  intro n norm ts
  refine ⟨?_, ?_, ?_, ?_, ?_⟩
  · simp [time_fields, JalaliMonthBegin.add, JalaliMonthEnd.add, JalaliQuarterBegin.add,
      JalaliQuarterEnd.add, JalaliYearBegin.add, JalaliYearEnd.add]
  · simp [time_fields, JalaliMonthBegin.add, JalaliMonthEnd.add, JalaliQuarterBegin.add,
      JalaliQuarterEnd.add, JalaliYearBegin.add, JalaliYearEnd.add]
  · exact ⟨fun h => ⟨by simp [JalaliMonthBegin.rollforward, h],
        by simp [JalaliMonthBegin.rollback, h]⟩,
      fun h => ⟨by simp [JalaliMonthEnd.rollforward, h],
        by simp [JalaliMonthEnd.rollback, h]⟩,
      fun h => ⟨by simp [JalaliQuarterBegin.rollforward, h],
        by simp [JalaliQuarterBegin.rollback, h]⟩,
      fun h => ⟨by simp [JalaliQuarterEnd.rollforward, h],
        by simp [JalaliQuarterEnd.rollback, h]⟩,
      fun h => ⟨by simp [JalaliYearBegin.rollforward, h],
        by simp [JalaliYearBegin.rollback, h]⟩,
      fun h => ⟨by simp [JalaliYearEnd.rollforward, h],
        by simp [JalaliYearEnd.rollback, h]⟩⟩
  · exact ⟨fun h => by
        simp [time_fields, hms_fields, JalaliMonthBegin.rollforward,
          JalaliMonthBegin.rollback, JalaliMonthBegin.add, h],
      fun h => by
        simp [hms_fields, JalaliMonthEnd.rollforward, JalaliMonthEnd.rollback,
          JalaliMonthEnd.get_month_end, h],
      fun h => by
        simp [time_fields, hms_fields, JalaliQuarterBegin.rollforward,
          JalaliQuarterBegin.rollback, JalaliQuarterBegin.add, h],
      fun h => by
        simp [hms_fields, JalaliQuarterEnd.rollforward, JalaliQuarterEnd.rollback,
          JalaliQuarterEnd.get_quarter_end, h],
      fun h => by
        simp [time_fields, hms_fields, JalaliYearBegin.rollforward,
          JalaliYearBegin.rollback, JalaliYearBegin.add, h],
      fun h => by
        simp [hms_fields, JalaliYearEnd.rollforward, JalaliYearEnd.rollback,
          JalaliYearEnd.get_year_end, h]⟩
  · exact ⟨fun h => by
        simp [time_fields, JalaliMonthBegin.rollforward, JalaliMonthBegin.rollback,
          JalaliMonthBegin.add, h],
      fun h => by
        simp [time_fields, JalaliMonthEnd.rollforward, JalaliMonthEnd.rollback,
          JalaliMonthEnd.get_month_end, h],
      fun h => by
        simp [time_fields, JalaliQuarterBegin.rollforward, JalaliQuarterBegin.rollback,
          JalaliQuarterBegin.add, h],
      fun h => by
        simp [time_fields, JalaliQuarterEnd.rollforward, JalaliQuarterEnd.rollback,
          JalaliQuarterEnd.get_quarter_end, h],
      fun h => by
        simp [time_fields, JalaliYearBegin.rollforward, JalaliYearBegin.rollback,
          JalaliYearBegin.add, h],
      fun h => by
        simp [time_fields, JalaliYearEnd.rollforward, JalaliYearEnd.rollback,
          JalaliYearEnd.get_year_end, h]⟩

/-- Witness for C8 at a concrete non-boundary timestamp with a nonzero
time of day. -/
theorem C8_witness :
    (JalaliMonthEnd.mk 1 false).is_on_offset
        { year := 1402, month := 6, day := 15, hour := 1, minute := 2, second := 3,
          microsecond := 7, nanosecond := 9 } = false
      ∧ hms_fields ((JalaliMonthEnd.mk 1 false).rollforward
          { year := 1402, month := 6, day := 15, hour := 1, minute := 2, second := 3,
            microsecond := 7, nanosecond := 9 })
        = (1, 2, 3) :=
  ⟨by decide, by
    have h := (C8_time_of_day_effects 1 false
      { year := 1402, month := 6, day := 15, hour := 1, minute := 2, second := 3,
        microsecond := 7, nanosecond := 9 }).2.2.2.1.2.1 (by decide)
    exact h.1⟩

/-- Witness for C10 at the concrete valid timestamp (1402, 6, 15). -/
theorem C10_witness :
    valid_ts { year := 1402, month := 6, day := 15 }
      ∧ (JalaliMonthBegin.mk 0 false).add { year := 1402, month := 6, day := 15 }
          = { year := 1402, month := 6, day := 1 } :=
  ⟨by decide, by
    have h := C10_zero_period_snaps_to_boundary { year := 1402, month := 6, day := 15 }
      (by decide)
    exact h.1⟩

/-! ## Claim C9 -/

/-- Claim C9 (confirmed): the frequency parser maps a string consisting of
an optional sign, an optional integer multiplier and a registered letter
code to the corresponding offset instance with that period count; in
particular "2JME" yields MonthEnd with n = 2 and "-1JYS" yields YearBegin
with n = -1; every registered alias parses to its class with the default
n = 1 and, with a leading minus sign, to n = -1; and it fails with
UnknownAlias exactly when the pattern matches but the letter code is not
registered, and with MalformedFrequency exactly when the normalized string
does not match the pattern (as on "12" or the empty string). -/
theorem C9_parse_frequency :
    parse_jalali_frequency "2JME" = Except.ok (JalaliOffsetValue.monthEnd { n := 2 })
    ∧ parse_jalali_frequency "-1JYS" = Except.ok (JalaliOffsetValue.yearBegin { n := -1 })
    ∧ (∀ p ∈ _JALALI_OFFSET_ALIASES,
        parse_jalali_frequency p.1 = Except.ok (p.2.construct 1)
          ∧ parse_jalali_frequency (String.mk ('-' :: p.1.data))
              = Except.ok (p.2.construct (-1)))
    ∧ (∀ s : String,
        parse_jalali_frequency s = Except.error FreqError.malformedFrequency ↔
          freq_regex_match ((py_strip s.data).map Char.toUpper) = none)
    ∧ (∀ s : String,
        parse_jalali_frequency s = Except.error FreqError.unknownAlias ↔
          ∃ neg ds tl,
            freq_regex_match ((py_strip s.data).map Char.toUpper) = some (neg, ds, tl)
              ∧ get_jalali_offset (String.mk tl) = none)
    ∧ parse_jalali_frequency "JXX" = Except.error FreqError.unknownAlias
    ∧ parse_jalali_frequency "12" = Except.error FreqError.malformedFrequency
    ∧ parse_jalali_frequency "" = Except.error FreqError.malformedFrequency := by
  have shape : ∀ s : String,
      parse_jalali_frequency s =
        match freq_regex_match ((py_strip s.data).map Char.toUpper) with
        | none => Except.error FreqError.malformedFrequency
        | some (neg, ds, tl) =>
          match get_jalali_offset (String.mk tl) with
          | none => Except.error FreqError.unknownAlias
          | some cls =>
            Except.ok (cls.construct
              (if neg then -(if ds = [] then 1 else (digits_to_nat ds : Int))
                else (if ds = [] then 1 else (digits_to_nat ds : Int)))) :=
    fun s => rfl
  refine ⟨by decide, by decide, by decide, ?_, ?_, by decide, by decide, by decide⟩
  · intro s
    rw [shape]
    rcases h : freq_regex_match ((py_strip s.data).map Char.toUpper) with _ | ⟨neg, ds, tl⟩
    · simp
    · rcases h2 : get_jalali_offset (String.mk tl) with _ | cls <;> simp [h2]
  · intro s
    rw [shape]
    rcases h : freq_regex_match ((py_strip s.data).map Char.toUpper) with _ | ⟨neg, ds, tl⟩
    · simp
    · rcases h2 : get_jalali_offset (String.mk tl) with _ | cls
      · simp only [h2]
        constructor
        · intro _
          exact ⟨neg, ds, tl, rfl, h2⟩
        · intro _
          trivial
      · simp [h2]

/-! ## Claim C7 -/

/-- Claim C7 counterexample: the claim states that equality holds exactly
when the full component tuple, including the optional timezone handle, is
equal.  But `JalaliTimestamp.__eq__` compares only the eight date/time
components and ignores `tzinfo`: two timestamps that differ only in their
timezone handle compare equal. -/
theorem C7_counterexample_eq_ignores_timezone :
    ts_eq { year := 1402, month := 1, day := 1 }
        { year := 1402, month := 1, day := 1, tzinfo := some 0 } = true
      ∧ ({ year := 1402, month := 1, day := 1 } : JalaliTimestamp).tzinfo
          ≠ ({ year := 1402, month := 1, day := 1, tzinfo := some 0 }
              : JalaliTimestamp).tzinfo := by
  exact ⟨by decide, by decide⟩

/-- Claim C7 (amended): equality of `JalaliTimestamp` holds exactly when
the eight date/time components (year, month, day, hour, minute, second,
microsecond, nanosecond) are equal — the timezone handle is not compared —
and ordering is resolved by comparing the epoch instants obtained through
the Gregorian/ordinal domain (never by lexical string comparison). -/
theorem C7_eq_and_ordering :
    ∀ a b : JalaliTimestamp,
      (ts_eq a b = true ↔
        (a.year = b.year ∧ a.month = b.month ∧ a.day = b.day
          ∧ a.hour = b.hour ∧ a.minute = b.minute ∧ a.second = b.second
          ∧ a.microsecond = b.microsecond ∧ a.nanosecond = b.nanosecond))
      ∧ (ts_lt a b = true ↔ epoch_nanoseconds a < epoch_nanoseconds b) := by
  intro a b
  constructor
  · simp [ts_eq, and_assoc]
  · simp [ts_lt]

/-- Witness for C9 at the registered alias "JME". -/
theorem C9_witness :
    ("JME", OffsetClass.monthEnd) ∈ _JALALI_OFFSET_ALIASES
      ∧ parse_jalali_frequency "JME" = Except.ok (JalaliOffsetValue.monthEnd { n := 1 }) :=
  ⟨by decide, (C9_parse_frequency.2.2.1 ("JME", OffsetClass.monthEnd) (by decide)).1⟩

/-! ## Claim C4: helper lemmas -/

theorem bounds_of_valid (t : JalaliTimestamp) (h : valid_ts t) :
    1 ≤ t.month ∧ t.month ≤ 12 ∧ 1 ≤ t.day ∧ t.day ≤ month_len t.year t.month := by
  have h2 := (validate_ok_iff t.year t.month t.day).mp h.1
  exact ⟨h2.1, h2.2.1, h2.2.2.1, h2.2.2.2⟩

theorem dateLe_refl (t : JalaliTimestamp) : dateLe t t :=
  Or.inr ⟨rfl, Or.inr ⟨rfl, le_refl _⟩⟩

theorem nearest_after_self (onOff : JalaliTimestamp → Bool) (dt : JalaliTimestamp)
    (h : onOff dt = true) : NearestOnOrAfter onOff dt dt :=
  ⟨h, dateLe_refl dt, fun _ _ _ hc => hc⟩

theorem nearest_before_self (onOff : JalaliTimestamp → Bool) (dt : JalaliTimestamp)
    (h : onOff dt = true) : NearestOnOrBefore onOff dt dt :=
  ⟨h, dateLe_refl dt, fun _ _ _ hc => hc⟩

theorem dateLe_mk_right (c : JalaliTimestamp) (y m d h mi sec us ns : Int)
    (tz : Option Nat) :
    dateLe c (JalaliTimestamp.mk y m d h mi sec us ns tz) ↔
      (c.year < y ∨ (c.year = y ∧ (c.month < m ∨ (c.month = m ∧ c.day ≤ d)))) :=
  Iff.rfl

theorem dateLe_mk_left (y m d h mi sec us ns : Int) (tz : Option Nat)
    (c : JalaliTimestamp) :
    dateLe (JalaliTimestamp.mk y m d h mi sec us ns tz) c ↔
      (y < c.year ∨ (y = c.year ∧ (m < c.month ∨ (m = c.month ∧ d ≤ c.day)))) :=
  Iff.rfl

theorem dateLe_unfold (a b : JalaliTimestamp) :
    dateLe a b ↔
      (a.year < b.year
        ∨ (a.year = b.year ∧ (a.month < b.month ∨ (a.month = b.month ∧ a.day ≤ b.day)))) :=
  Iff.rfl

theorem monthBegin_rollback_nearest (n : Int) (norm : Bool) (dt : JalaliTimestamp)
    (hv : valid_ts dt) :
    NearestOnOrBefore (JalaliMonthBegin.mk n norm).is_on_offset dt
      ((JalaliMonthBegin.mk n norm).rollback dt) := by
  obtain ⟨hm1, hm2, hd1, hd2⟩ := bounds_of_valid dt hv
  by_cases h : (JalaliMonthBegin.mk n norm).is_on_offset dt = true
  · simp only [JalaliMonthBegin.rollback, if_pos h]
    exact nearest_before_self _ _ h
  · simp only [JalaliMonthBegin.rollback, if_neg h]
    refine ⟨by simp [JalaliMonthBegin.is_on_offset], ?_, ?_⟩
    · rw [dateLe_mk_left]
      omega
    · intro c hvc hoc hle
      obtain ⟨hcm1, hcm2, hcd1, hcd2⟩ := bounds_of_valid c hvc
      have hoc2 : c.day = 1 := by simpa [JalaliMonthBegin.is_on_offset] using hoc
      rw [dateLe_unfold] at hle
      rw [dateLe_mk_right]
      omega

theorem quarterBegin_rollback_nearest (n : Int) (norm : Bool) (dt : JalaliTimestamp)
    (hv : valid_ts dt) :
    NearestOnOrBefore (JalaliQuarterBegin.mk n norm).is_on_offset dt
      ((JalaliQuarterBegin.mk n norm).rollback dt) := by
  obtain ⟨hm1, hm2, hd1, hd2⟩ := bounds_of_valid dt hv
  have hq : (dt.month - 1).fdiv 3 = (dt.month - 1) / 3 := fdiv_eq_div _ 3 (by norm_num)
  by_cases h : (JalaliQuarterBegin.mk n norm).is_on_offset dt = true
  · simp only [JalaliQuarterBegin.rollback, if_pos h]
    exact nearest_before_self _ _ h
  · simp only [JalaliQuarterBegin.rollback, if_neg h]
    refine ⟨?_, ?_, ?_⟩
    · simp only [JalaliQuarterBegin.is_on_offset]
      rw [hq]
      simp only [Bool.and_eq_true, Bool.or_eq_true, beq_iff_eq, and_true, true_and]
      omega
    · rw [dateLe_mk_left, hq]
      omega
    · intro c hvc hoc hle
      obtain ⟨hcm1, hcm2, hcd1, hcd2⟩ := bounds_of_valid c hvc
      have hoc2 := by simpa [JalaliQuarterBegin.is_on_offset] using hoc
      rw [dateLe_unfold] at hle
      rw [dateLe_mk_right, hq]
      omega

theorem yearBegin_rollback_nearest (n : Int) (norm : Bool) (dt : JalaliTimestamp)
    (hv : valid_ts dt) :
    NearestOnOrBefore (JalaliYearBegin.mk n norm).is_on_offset dt
      ((JalaliYearBegin.mk n norm).rollback dt) := by
  obtain ⟨hm1, hm2, hd1, hd2⟩ := bounds_of_valid dt hv
  by_cases h : (JalaliYearBegin.mk n norm).is_on_offset dt = true
  · simp only [JalaliYearBegin.rollback, if_pos h]
    exact nearest_before_self _ _ h
  · simp only [JalaliYearBegin.rollback, if_neg h]
    refine ⟨by simp [JalaliYearBegin.is_on_offset], ?_, ?_⟩
    · rw [dateLe_mk_left]
      omega
    · intro c hvc hoc hle
      obtain ⟨hcm1, hcm2, hcd1, hcd2⟩ := bounds_of_valid c hvc
      have hoc2 : c.month = 1 ∧ c.day = 1 := by
        simpa [JalaliYearBegin.is_on_offset] using hoc
      rw [dateLe_unfold] at hle
      rw [dateLe_mk_right]
      omega

theorem monthBegin_rollforward_nearest (norm : Bool) (dt : JalaliTimestamp)
    (hv : valid_ts dt) :
    NearestOnOrAfter (JalaliMonthBegin.mk 1 norm).is_on_offset dt
      ((JalaliMonthBegin.mk 1 norm).rollforward dt) := by
  obtain ⟨hm1, hm2, hd1, hd2⟩ := bounds_of_valid dt hv
  have hdv : (dt.year * 12 + dt.month - 1 + 1).fdiv 12 = (dt.year * 12 + dt.month - 1 + 1) / 12 :=
    fdiv_eq_div _ 12 (by norm_num)
  have hmv : (dt.year * 12 + dt.month - 1 + 1).fmod 12 = (dt.year * 12 + dt.month - 1 + 1) % 12 :=
    fmod_eq_mod _ 12 (by norm_num)
  by_cases h : (JalaliMonthBegin.mk 1 norm).is_on_offset dt = true
  · simp only [JalaliMonthBegin.rollforward, if_pos h]
    exact nearest_after_self _ _ h
  · have hnot : ¬ dt.day = 1 := by simpa [JalaliMonthBegin.is_on_offset] using h
    simp only [JalaliMonthBegin.rollforward, if_neg h, JalaliMonthBegin.add]
    refine ⟨by simp [JalaliMonthBegin.is_on_offset], ?_, ?_⟩
    · rw [dateLe_mk_right, hdv, hmv]
      omega
    · intro c hvc hoc hle
      obtain ⟨hcm1, hcm2, hcd1, hcd2⟩ := bounds_of_valid c hvc
      have hoc2 : c.day = 1 := by simpa [JalaliMonthBegin.is_on_offset] using hoc
      rw [dateLe_unfold] at hle
      rw [dateLe_mk_left, hdv, hmv]
      omega

theorem quarterBegin_rollforward_nearest (norm : Bool) (dt : JalaliTimestamp)
    (hv : valid_ts dt) :
    NearestOnOrAfter (JalaliQuarterBegin.mk 1 norm).is_on_offset dt
      ((JalaliQuarterBegin.mk 1 norm).rollforward dt) := by
  obtain ⟨hm1, hm2, hd1, hd2⟩ := bounds_of_valid dt hv
  have hq : (dt.month - 1).fdiv 3 = (dt.month - 1) / 3 := fdiv_eq_div _ 3 (by norm_num)
  by_cases h : (JalaliQuarterBegin.mk 1 norm).is_on_offset dt = true
  · simp only [JalaliQuarterBegin.rollforward, if_pos h]
    exact nearest_after_self _ _ h
  · have hnot := by simpa [JalaliQuarterBegin.is_on_offset] using h
    simp only [JalaliQuarterBegin.rollforward, if_neg h, JalaliQuarterBegin.add]
    have hdv : (dt.year * 4 + (dt.month - 1).fdiv 3 + 1).fdiv 4
        = (dt.year * 4 + (dt.month - 1) / 3 + 1) / 4 := by
      rw [hq]; exact fdiv_eq_div _ 4 (by norm_num)
    have hmv : (dt.year * 4 + (dt.month - 1).fdiv 3 + 1).fmod 4
        = (dt.year * 4 + (dt.month - 1) / 3 + 1) % 4 := by
      rw [hq]; exact fmod_eq_mod _ 4 (by norm_num)
    refine ⟨?_, ?_, ?_⟩
    · simp only [JalaliQuarterBegin.is_on_offset]
      rw [hmv]
      simp only [Bool.and_eq_true, Bool.or_eq_true, beq_iff_eq, and_true, true_and]
      omega
    · rw [dateLe_mk_right, hdv, hmv]
      omega
    · intro c hvc hoc hle
      obtain ⟨hcm1, hcm2, hcd1, hcd2⟩ := bounds_of_valid c hvc
      have hoc2 := by simpa [JalaliQuarterBegin.is_on_offset] using hoc
      rw [dateLe_unfold] at hle
      rw [dateLe_mk_left, hdv, hmv]
      omega

theorem monthEnd_rollforward_nearest (n : Int) (norm : Bool) (dt : JalaliTimestamp)
    (hv : valid_ts dt) :
    NearestOnOrAfter (JalaliMonthEnd.mk n norm).is_on_offset dt
      ((JalaliMonthEnd.mk n norm).rollforward dt) := by
  obtain ⟨hm1, hm2, hd1, hd2⟩ := bounds_of_valid dt hv
  by_cases h : (JalaliMonthEnd.mk n norm).is_on_offset dt = true
  · simp only [JalaliMonthEnd.rollforward, if_pos h]
    exact nearest_after_self _ _ h
  · simp only [JalaliMonthEnd.rollforward, if_neg h, JalaliMonthEnd.get_month_end]
    refine ⟨by simp [JalaliMonthEnd.is_on_offset], ?_, ?_⟩
    · rw [dateLe_mk_right]
      omega
    · intro c hvc hoc hle
      obtain ⟨hcm1, hcm2, hcd1, hcd2⟩ := bounds_of_valid c hvc
      have hoc2 : c.day = month_len c.year c.month := by
        simpa [JalaliMonthEnd.is_on_offset] using hoc
      rw [dateLe_unfold] at hle
      rw [dateLe_mk_left]
      by_cases e1 : c.year = dt.year ∧ c.month = dt.month
      · obtain ⟨e1a, e1b⟩ := e1
        rw [e1a, e1b] at hoc2
        omega
      · omega

theorem monthEnd_rollback_nearest (n : Int) (norm : Bool) (dt : JalaliTimestamp)
    (hv : valid_ts dt) :
    NearestOnOrBefore (JalaliMonthEnd.mk n norm).is_on_offset dt
      ((JalaliMonthEnd.mk n norm).rollback dt) := by
  obtain ⟨hm1, hm2, hd1, hd2⟩ := bounds_of_valid dt hv
  by_cases h : (JalaliMonthEnd.mk n norm).is_on_offset dt = true
  · simp only [JalaliMonthEnd.rollback, if_pos h]
    exact nearest_before_self _ _ h
  · have hnot : ¬ dt.day = month_len dt.year dt.month := by
      simpa [JalaliMonthEnd.is_on_offset] using h
    simp only [JalaliMonthEnd.rollback, if_neg h]
    by_cases hm : dt.month = 1
    · simp only [if_pos hm]
      refine ⟨by simp [JalaliMonthEnd.is_on_offset], ?_, ?_⟩
      · rw [dateLe_mk_left]
        omega
      · intro c hvc hoc hle
        obtain ⟨hcm1, hcm2, hcd1, hcd2⟩ := bounds_of_valid c hvc
        have hoc2 : c.day = month_len c.year c.month := by
          simpa [JalaliMonthEnd.is_on_offset] using hoc
        rw [dateLe_unfold] at hle
        rw [dateLe_mk_right]
        by_cases e2 : c.year = dt.year - 1 ∧ c.month = 12
        · obtain ⟨e2a, e2b⟩ := e2
          rw [e2a, e2b] at hoc2
          omega
        · by_cases e1 : c.year = dt.year ∧ c.month = dt.month
          · obtain ⟨e1a, e1b⟩ := e1
            rw [e1a, e1b] at hoc2
            omega
          · omega
    · simp only [if_neg hm]
      refine ⟨by simp [JalaliMonthEnd.is_on_offset], ?_, ?_⟩
      · rw [dateLe_mk_left]
        omega
      · intro c hvc hoc hle
        obtain ⟨hcm1, hcm2, hcd1, hcd2⟩ := bounds_of_valid c hvc
        have hoc2 : c.day = month_len c.year c.month := by
          simpa [JalaliMonthEnd.is_on_offset] using hoc
        rw [dateLe_unfold] at hle
        rw [dateLe_mk_right]
        by_cases e2 : c.year = dt.year ∧ c.month = dt.month - 1
        · obtain ⟨e2a, e2b⟩ := e2
          rw [e2a, e2b] at hoc2
          omega
        · by_cases e1 : c.year = dt.year ∧ c.month = dt.month
          · obtain ⟨e1a, e1b⟩ := e1
            rw [e1a, e1b] at hoc2
            omega
          · omega

theorem quarterEnd_rollforward_nearest (n : Int) (norm : Bool) (dt : JalaliTimestamp)
    (hv : valid_ts dt) :
    NearestOnOrAfter (JalaliQuarterEnd.mk n norm).is_on_offset dt
      ((JalaliQuarterEnd.mk n norm).rollforward dt) := by
  obtain ⟨hm1, hm2, hd1, hd2⟩ := bounds_of_valid dt hv
  have hq : (dt.month - 1).fdiv 3 = (dt.month - 1) / 3 := fdiv_eq_div _ 3 (by norm_num)
  by_cases h : (JalaliQuarterEnd.mk n norm).is_on_offset dt = true
  · simp only [JalaliQuarterEnd.rollforward, if_pos h]
    exact nearest_after_self _ _ h
  · have hnot := by simpa [JalaliQuarterEnd.is_on_offset] using h
    simp only [JalaliQuarterEnd.rollforward, if_neg h, JalaliQuarterEnd.get_quarter_end]
    rw [hq]
    refine ⟨?_, ?_, ?_⟩
    · simp only [JalaliQuarterEnd.is_on_offset]
      simp only [Bool.and_eq_true, Bool.or_eq_true, beq_iff_eq, and_true, true_and]
      omega
    · rw [dateLe_mk_right]
      by_cases e : dt.month = ((dt.month - 1) / 3 + 1) * 3
      · rw [← e]
        omega
      · omega
    · intro c hvc hoc hle
      obtain ⟨hcm1, hcm2, hcd1, hcd2⟩ := bounds_of_valid c hvc
      have hoc2 := by simpa [JalaliQuarterEnd.is_on_offset] using hoc
      rw [dateLe_unfold] at hle
      rw [dateLe_mk_left]
      by_cases e1 : c.year = dt.year ∧ c.month = ((dt.month - 1) / 3 + 1) * 3
      · obtain ⟨e1a, e1b⟩ := e1
        rw [e1a, e1b] at hoc2
        omega
      · omega

theorem quarterEnd_rollback_nearest (n : Int) (norm : Bool) (dt : JalaliTimestamp)
    (hv : valid_ts dt) :
    NearestOnOrBefore (JalaliQuarterEnd.mk n norm).is_on_offset dt
      ((JalaliQuarterEnd.mk n norm).rollback dt) := by
  obtain ⟨hm1, hm2, hd1, hd2⟩ := bounds_of_valid dt hv
  have hq : (dt.month - 1).fdiv 3 = (dt.month - 1) / 3 := fdiv_eq_div _ 3 (by norm_num)
  by_cases h : (JalaliQuarterEnd.mk n norm).is_on_offset dt = true
  · simp only [JalaliQuarterEnd.rollback, if_pos h]
    exact nearest_before_self _ _ h
  · have hnot := by simpa [JalaliQuarterEnd.is_on_offset] using h
    simp only [JalaliQuarterEnd.rollback, if_neg h, hq]
    by_cases hcq : (dt.month - 1) / 3 = 0
    · simp only [if_pos hcq]
      refine ⟨by simp [JalaliQuarterEnd.is_on_offset], ?_, ?_⟩
      · rw [dateLe_mk_left]
        omega
      · intro c hvc hoc hle
        obtain ⟨hcm1, hcm2, hcd1, hcd2⟩ := bounds_of_valid c hvc
        have hoc2 := by simpa [JalaliQuarterEnd.is_on_offset] using hoc
        rw [dateLe_unfold] at hle
        rw [dateLe_mk_right]
        by_cases e2 : c.year = dt.year - 1 ∧ c.month = 12
        · obtain ⟨e2a, e2b⟩ := e2
          rw [e2a, e2b] at hoc2
          omega
        · by_cases e1 : c.year = dt.year ∧ c.month = dt.month
          · obtain ⟨e1a, e1b⟩ := e1
            rw [e1a, e1b] at hoc2
            omega
          · omega
    · simp only [if_neg hcq]
      refine ⟨?_, ?_, ?_⟩
      · simp only [JalaliQuarterEnd.is_on_offset]
        simp only [Bool.and_eq_true, Bool.or_eq_true, beq_iff_eq, and_true, true_and]
        omega
      · rw [dateLe_mk_left]
        omega
      · intro c hvc hoc hle
        obtain ⟨hcm1, hcm2, hcd1, hcd2⟩ := bounds_of_valid c hvc
        have hoc2 := by simpa [JalaliQuarterEnd.is_on_offset] using hoc
        rw [dateLe_unfold] at hle
        rw [dateLe_mk_right]
        by_cases e2 : c.year = dt.year ∧ c.month = (dt.month - 1) / 3 * 3
        · obtain ⟨e2a, e2b⟩ := e2
          rw [e2a, e2b] at hoc2
          omega
        · by_cases e1 : c.year = dt.year ∧ c.month = dt.month
          · obtain ⟨e1a, e1b⟩ := e1
            rw [e1a, e1b] at hoc2
            omega
          · omega

theorem yearEnd_rollforward_nearest (n : Int) (norm : Bool) (dt : JalaliTimestamp)
    (hv : valid_ts dt) :
    NearestOnOrAfter (JalaliYearEnd.mk n norm).is_on_offset dt
      ((JalaliYearEnd.mk n norm).rollforward dt) := by
  obtain ⟨hm1, hm2, hd1, hd2⟩ := bounds_of_valid dt hv
  by_cases h : (JalaliYearEnd.mk n norm).is_on_offset dt = true
  · simp only [JalaliYearEnd.rollforward, if_pos h]
    exact nearest_after_self _ _ h
  · have hnot := by simpa [JalaliYearEnd.is_on_offset] using h
    simp only [JalaliYearEnd.rollforward, if_neg h, JalaliYearEnd.get_year_end]
    refine ⟨by simp [JalaliYearEnd.is_on_offset], ?_, ?_⟩
    · rw [dateLe_mk_right]
      by_cases em : dt.month = 12
      · rw [em] at hd2
        omega
      · omega
    · intro c hvc hoc hle
      obtain ⟨hcm1, hcm2, hcd1, hcd2⟩ := bounds_of_valid c hvc
      have hoc2 : c.month = 12 ∧ c.day = month_len c.year 12 := by
        simpa [JalaliYearEnd.is_on_offset] using hoc
      rw [dateLe_unfold] at hle
      rw [dateLe_mk_left]
      by_cases e1 : c.year = dt.year
      · rw [e1] at hoc2
        omega
      · omega

theorem yearEnd_rollback_nearest (n : Int) (norm : Bool) (dt : JalaliTimestamp)
    (hv : valid_ts dt) :
    NearestOnOrBefore (JalaliYearEnd.mk n norm).is_on_offset dt
      ((JalaliYearEnd.mk n norm).rollback dt) := by
  obtain ⟨hm1, hm2, hd1, hd2⟩ := bounds_of_valid dt hv
  have hlen : month_len (dt.year - 1) 12 = (if is_leap_year (dt.year - 1) then (30:Int) else 29) := by
    simp [month_len]
  by_cases h : (JalaliYearEnd.mk n norm).is_on_offset dt = true
  · simp only [JalaliYearEnd.rollback, if_pos h]
    exact nearest_before_self _ _ h
  · have hnot := by simpa [JalaliYearEnd.is_on_offset] using h
    simp only [JalaliYearEnd.rollback, if_neg h]
    refine ⟨?_, ?_, ?_⟩
    · simp [JalaliYearEnd.is_on_offset, month_len]
    · rw [dateLe_mk_left]
      omega
    · intro c hvc hoc hle
      obtain ⟨hcm1, hcm2, hcd1, hcd2⟩ := bounds_of_valid c hvc
      have hoc2 : c.month = 12 ∧ c.day = month_len c.year 12 := by
        simpa [JalaliYearEnd.is_on_offset] using hoc
      rw [dateLe_unfold] at hle
      rw [dateLe_mk_right]
      by_cases e2 : c.year = dt.year - 1
      · rw [e2, hlen] at hoc2
        omega
      · by_cases e1 : c.year = dt.year
        · by_cases em : dt.month = 12
          · rw [em] at hd2
            rw [e1] at hoc2
            omega
          · omega
        · omega

theorem yearBegin_rollforward_nearest (norm : Bool) (dt : JalaliTimestamp)
    (hv : valid_ts dt) :
    NearestOnOrAfter (JalaliYearBegin.mk 1 norm).is_on_offset dt
      ((JalaliYearBegin.mk 1 norm).rollforward dt) := by
  obtain ⟨hm1, hm2, hd1, hd2⟩ := bounds_of_valid dt hv
  by_cases h : (JalaliYearBegin.mk 1 norm).is_on_offset dt = true
  · simp only [JalaliYearBegin.rollforward, if_pos h]
    exact nearest_after_self _ _ h
  · have hnot := by simpa [JalaliYearBegin.is_on_offset] using h
    simp only [JalaliYearBegin.rollforward, if_neg h, JalaliYearBegin.add]
    refine ⟨by simp [JalaliYearBegin.is_on_offset], ?_, ?_⟩
    · rw [dateLe_mk_right]
      omega
    · intro c hvc hoc hle
      obtain ⟨hcm1, hcm2, hcd1, hcd2⟩ := bounds_of_valid c hvc
      have hoc2 : c.month = 1 ∧ c.day = 1 := by
        simpa [JalaliYearBegin.is_on_offset] using hoc
      rw [dateLe_unfold] at hle
      rw [dateLe_mk_left]
      omega

/-! ## Claim C4 -/

/-- Claim C4 counterexample: the claim states that rollforward (for every
period count `n`) returns the nearest boundary at or after the timestamp.
But the Begin variants implement rollforward as `self + dt`, which uses the
instance's own `n`: with `n = 2`, `JalaliMonthBegin(2).rollforward` of
(1402, 6, 15) lands on (1402, 8, 1) even though the valid boundary
(1402, 7, 1) lies strictly between the input and the result. -/
theorem C4_counterexample_rollforward_not_nearest :
    (JalaliMonthBegin.mk 2 false).rollforward { year := 1402, month := 6, day := 15 }
        = { year := 1402, month := 8, day := 1 }
      ∧ (JalaliMonthBegin.mk 2 false).is_on_offset { year := 1402, month := 7, day := 1 }
          = true
      ∧ valid_ts { year := 1402, month := 7, day := 1 }
      ∧ dateLt { year := 1402, month := 6, day := 15 } { year := 1402, month := 7, day := 1 }
      ∧ dateLt { year := 1402, month := 7, day := 1 } { year := 1402, month := 8, day := 1 } := by
  refine ⟨by decide, by decide, by decide, by decide, by decide⟩

/-- Claim C4 (amended): for the six Begin/End calendar offset variants (the
week variant routes through the external conversion service and is out of
scope here), on any valid timestamp:

* rollforward and rollback return the timestamp unchanged when
  `is_on_offset` holds (any `n`);
* rollback always returns the nearest boundary at or before the timestamp
  (any `n`), and so does rollforward for the End variants (any `n`,
  nearest at or after);
* for the Begin variants, rollforward returns the nearest boundary at or
  after the timestamp only for instances with `n = 1` (the operation
  delegates to `apply` with the instance's own `n`, which overshoots for
  `n >= 2` and can move backwards for `n <= 0`). -/
theorem C4_roll_nearest_boundary :
    ∀ (n : Int) (norm : Bool) (dt : JalaliTimestamp), valid_ts dt →
      ((JalaliMonthBegin.mk n norm).is_on_offset dt = true →
          (JalaliMonthBegin.mk n norm).rollforward dt = dt
            ∧ (JalaliMonthBegin.mk n norm).rollback dt = dt)
      ∧ ((JalaliMonthEnd.mk n norm).is_on_offset dt = true →
          (JalaliMonthEnd.mk n norm).rollforward dt = dt
            ∧ (JalaliMonthEnd.mk n norm).rollback dt = dt)
      ∧ ((JalaliQuarterBegin.mk n norm).is_on_offset dt = true →
          (JalaliQuarterBegin.mk n norm).rollforward dt = dt
            ∧ (JalaliQuarterBegin.mk n norm).rollback dt = dt)
      ∧ ((JalaliQuarterEnd.mk n norm).is_on_offset dt = true →
          (JalaliQuarterEnd.mk n norm).rollforward dt = dt
            ∧ (JalaliQuarterEnd.mk n norm).rollback dt = dt)
      ∧ ((JalaliYearBegin.mk n norm).is_on_offset dt = true →
          (JalaliYearBegin.mk n norm).rollforward dt = dt
            ∧ (JalaliYearBegin.mk n norm).rollback dt = dt)
      ∧ ((JalaliYearEnd.mk n norm).is_on_offset dt = true →
          (JalaliYearEnd.mk n norm).rollforward dt = dt
            ∧ (JalaliYearEnd.mk n norm).rollback dt = dt)
      ∧ NearestOnOrAfter (JalaliMonthEnd.mk n norm).is_on_offset dt
          ((JalaliMonthEnd.mk n norm).rollforward dt)
      ∧ NearestOnOrAfter (JalaliQuarterEnd.mk n norm).is_on_offset dt
          ((JalaliQuarterEnd.mk n norm).rollforward dt)
      ∧ NearestOnOrAfter (JalaliYearEnd.mk n norm).is_on_offset dt
          ((JalaliYearEnd.mk n norm).rollforward dt)
      ∧ NearestOnOrAfter (JalaliMonthBegin.mk 1 norm).is_on_offset dt
          ((JalaliMonthBegin.mk 1 norm).rollforward dt)
      ∧ NearestOnOrAfter (JalaliQuarterBegin.mk 1 norm).is_on_offset dt
          ((JalaliQuarterBegin.mk 1 norm).rollforward dt)
      ∧ NearestOnOrAfter (JalaliYearBegin.mk 1 norm).is_on_offset dt
          ((JalaliYearBegin.mk 1 norm).rollforward dt)
      ∧ NearestOnOrBefore (JalaliMonthBegin.mk n norm).is_on_offset dt
          ((JalaliMonthBegin.mk n norm).rollback dt)
      ∧ NearestOnOrBefore (JalaliMonthEnd.mk n norm).is_on_offset dt
          ((JalaliMonthEnd.mk n norm).rollback dt)
      ∧ NearestOnOrBefore (JalaliQuarterBegin.mk n norm).is_on_offset dt
          ((JalaliQuarterBegin.mk n norm).rollback dt)
      ∧ NearestOnOrBefore (JalaliQuarterEnd.mk n norm).is_on_offset dt
          ((JalaliQuarterEnd.mk n norm).rollback dt)
      ∧ NearestOnOrBefore (JalaliYearBegin.mk n norm).is_on_offset dt
          ((JalaliYearBegin.mk n norm).rollback dt)
      ∧ NearestOnOrBefore (JalaliYearEnd.mk n norm).is_on_offset dt
          ((JalaliYearEnd.mk n norm).rollback dt) := by
  intro n norm dt hv
  exact ⟨fun h => ⟨by simp [JalaliMonthBegin.rollforward, h],
      by simp [JalaliMonthBegin.rollback, h]⟩,
    fun h => ⟨by simp [JalaliMonthEnd.rollforward, h],
      by simp [JalaliMonthEnd.rollback, h]⟩,
    fun h => ⟨by simp [JalaliQuarterBegin.rollforward, h],
      by simp [JalaliQuarterBegin.rollback, h]⟩,
    fun h => ⟨by simp [JalaliQuarterEnd.rollforward, h],
      by simp [JalaliQuarterEnd.rollback, h]⟩,
    fun h => ⟨by simp [JalaliYearBegin.rollforward, h],
      by simp [JalaliYearBegin.rollback, h]⟩,
    fun h => ⟨by simp [JalaliYearEnd.rollforward, h],
      by simp [JalaliYearEnd.rollback, h]⟩,
    monthEnd_rollforward_nearest n norm dt hv,
    quarterEnd_rollforward_nearest n norm dt hv,
    yearEnd_rollforward_nearest n norm dt hv,
    monthBegin_rollforward_nearest norm dt hv,
    quarterBegin_rollforward_nearest norm dt hv,
    yearBegin_rollforward_nearest norm dt hv,
    monthBegin_rollback_nearest n norm dt hv,
    monthEnd_rollback_nearest n norm dt hv,
    quarterBegin_rollback_nearest n norm dt hv,
    quarterEnd_rollback_nearest n norm dt hv,
    yearBegin_rollback_nearest n norm dt hv,
    yearEnd_rollback_nearest n norm dt hv⟩

/-- Witness for C4 at a concrete valid timestamp and period count 5. -/
theorem C4_witness :
    valid_ts { year := 1402, month := 6, day := 15 }
      ∧ NearestOnOrAfter (JalaliMonthEnd.mk 5 false).is_on_offset
          { year := 1402, month := 6, day := 15 }
          ((JalaliMonthEnd.mk 5 false).rollforward { year := 1402, month := 6, day := 15 }) :=
  ⟨by decide,
    (C4_roll_nearest_boundary 5 false { year := 1402, month := 6, day := 15 }
      (by decide)).2.2.2.2.2.2.1⟩

/-! ## Claim C2: arithmetic lemmas for the modelled conversion -/

theorem leap_cnt_nonneg (x : Int) : 0 ≤ leap_cnt x := by
  unfold leap_cnt
  split_ifs <;> norm_num

theorem leap_cnt_le8 (x : Int) : leap_cnt x ≤ 8 := by
  unfold leap_cnt
  split_ifs <;> norm_num

theorem leap_cnt_succ (x : Int) :
    leap_cnt x ≤ leap_cnt (x + 1) ∧ leap_cnt (x + 1) ≤ leap_cnt x + 1 := by
  rcases lt_or_le x 0 with h | h
  · have e1 : leap_cnt x = 0 := by unfold leap_cnt; rw [if_pos (by omega)]
    have e2 : leap_cnt (x + 1) = 0 := by unfold leap_cnt; rw [if_pos (by omega)]
    omega
  · rcases lt_or_le x 33 with h2 | h2
    · interval_cases x <;> norm_num [leap_cnt]
    · have e1 : leap_cnt x = 8 := by
        unfold leap_cnt
        split_ifs <;> omega
      have e2 : leap_cnt (x + 1) = 8 := by
        unfold leap_cnt
        split_ifs <;> omega
      omega

theorem leap_cnt_33 : leap_cnt 33 = 8 := by norm_num [leap_cnt]

theorem leap_cnt_0 : leap_cnt 0 = 0 := by norm_num [leap_cnt]

/-- The cycle-step of `leap_cnt` counts exactly the 33-year-rule leap years:
for a cycle position `r`, year `33q + r + 1` is leap (its remainder mod 33
is `(r+1) % 33`) precisely when `leap_cnt` increments from `r` to `r + 1`. -/
theorem leap_cnt_step (r : Int) (h0 : 0 ≤ r) (h1 : r < 33) :
    leap_cnt (r + 1) - leap_cnt r
      = (if (r + 1) % 33 = 1 ∨ (r + 1) % 33 = 5 ∨ (r + 1) % 33 = 9 ∨ (r + 1) % 33 = 13
          ∨ (r + 1) % 33 = 17 ∨ (r + 1) % 33 = 22 ∨ (r + 1) % 33 = 26 ∨ (r + 1) % 33 = 30
        then 1 else 0) := by
  interval_cases r <;> norm_num [leap_cnt]

/-- Characterization of `year_in_cycle` on the decomposed form. -/
theorem year_in_cycle_eq (j t r : Int) (hj0 : 0 ≤ j) (hj1 : j < 33) (ht0 : 0 ≤ t)
    (ht1 : t < 365 + leap_cnt (j + 1) - leap_cnt j)
    (hr : r = 365 * j + leap_cnt j + t) :
    year_in_cycle r = j := by
  have h1 := leap_cnt_nonneg j
  have h2 := leap_cnt_le8 j
  have h3 := leap_cnt_nonneg (j + 1)
  have h4 := leap_cnt_le8 (j + 1)
  have h5 := leap_cnt_succ j
  unfold year_in_cycle
  rw [fdiv_eq_div _ 365 (by norm_num)]
  by_cases hj : r / 365 = j
  · rw [hj, if_pos (by omega)]
  · have hj2 : r / 365 = j + 1 := by omega
    rw [hj2, if_neg (by omega)]
    omega

/-- Bounds for `year_in_cycle` on an arbitrary day offset inside a cycle. -/
theorem year_in_cycle_bounds (s : Int) (h0 : 0 ≤ s) (h1 : s < 12053) :
    0 ≤ year_in_cycle s ∧ year_in_cycle s < 33
      ∧ 365 * year_in_cycle s + leap_cnt (year_in_cycle s) ≤ s
      ∧ s < 365 * (year_in_cycle s + 1) + leap_cnt (year_in_cycle s + 1) := by
  unfold year_in_cycle
  rw [fdiv_eq_div _ 365 (by norm_num)]
  by_cases hc : 365 * (s / 365) + leap_cnt (s / 365) ≤ s
  · rw [if_pos hc]
    have hub := leap_cnt_nonneg (s / 365 + 1)
    have hj33 : ¬ s / 365 = 33 := by
      intro he
      rw [he, leap_cnt_33] at hc
      omega
    have hnn := leap_cnt_nonneg (s / 365)
    refine ⟨by omega, by omega, hc, by omega⟩
  · rw [if_neg hc]
    have hj0 : ¬ s / 365 = 0 := by
      intro he
      rw [he, leap_cnt_0] at hc
      omega
    have h2 := leap_cnt_le8 (s / 365 - 1)
    have h3 := leap_cnt_nonneg (s / 365 - 1)
    have h4 : s / 365 - 1 + 1 = s / 365 := by omega
    refine ⟨by omega, by omega, by omega, ?_⟩
    rw [h4]
    omega

/-- Forward extraction: the month/day extraction inverts the month-start
table on in-range days. -/
theorem jalali_md_extract_jms (m d : Int) (hm1 : 1 ≤ m) (hm2 : m ≤ 12) (hd1 : 1 ≤ d)
    (hub : d ≤ (if m ≤ 6 then (31:Int) else 30)) :
    jalali_md_extract (jalali_month_start m + d - 1) = (m, d) := by
  unfold jalali_md_extract jalali_month_start
  by_cases h7 : m ≤ 7
  · rw [if_pos h7]
    rw [fdiv_eq_div (31 * (m - 1) + d - 1) 31 (by norm_num),
      fmod_eq_mod (31 * (m - 1) + d - 1) 31 (by norm_num),
      fdiv_eq_div (31 * (m - 1) + d - 1 - 186) 30 (by norm_num),
      fmod_eq_mod (31 * (m - 1) + d - 1 - 186) 30 (by norm_num)]
    split_ifs <;> simp only [Prod.mk.injEq] <;> constructor <;> omega
  · rw [if_neg h7]
    rw [fdiv_eq_div (186 + 30 * (m - 7) + d - 1) 31 (by norm_num),
      fmod_eq_mod (186 + 30 * (m - 7) + d - 1) 31 (by norm_num),
      fdiv_eq_div (186 + 30 * (m - 7) + d - 1 - 186) 30 (by norm_num),
      fmod_eq_mod (186 + 30 * (m - 7) + d - 1 - 186) 30 (by norm_num)]
    split_ifs <;> simp only [Prod.mk.injEq] <;> constructor <;> omega

/-- Backward extraction: the month/day extraction of any in-range
day-of-year offset is a valid month/day pair that maps back to it. -/
theorem jalali_md_extract_bounds (t M D : Int) (h0 : 0 ≤ t) (h1 : t ≤ 365)
    (he : jalali_md_extract t = (M, D)) :
    1 ≤ M ∧ M ≤ 12 ∧ 1 ≤ D ∧ jalali_month_start M + D - 1 = t
      ∧ D ≤ (if M ≤ 6 then (31:Int) else 30) ∧ (M = 12 → D = t - 335) := by
  unfold jalali_md_extract at he
  rw [fdiv_eq_div t 31 (by norm_num), fmod_eq_mod t 31 (by norm_num),
    fdiv_eq_div (t - 186) 30 (by norm_num), fmod_eq_mod (t - 186) 30 (by norm_num)] at he
  unfold jalali_month_start
  split_ifs at he with e1 e2 <;> simp only [Prod.mk.injEq] at he <;>
    obtain ⟨hM, hD⟩ := he <;> subst hM <;> subst hD <;> split_ifs <;>
    refine ⟨by omega, by omega, by omega, by omega, by omega, by omega⟩

/-- The inverse converter, written without local definitions. -/
theorem jalali_from_shape (n : Int) :
    jalali_from_day_number n
      = (33 * (n.fdiv 12053) + year_in_cycle (n.fmod 12053) + 1,
        (jalali_md_extract (n.fmod 12053
            - (365 * year_in_cycle (n.fmod 12053)
              + leap_cnt (year_in_cycle (n.fmod 12053))))).1,
        (jalali_md_extract (n.fmod 12053
            - (365 * year_in_cycle (n.fmod 12053)
              + leap_cnt (year_in_cycle (n.fmod 12053))))).2) := rfl

/-- Round trip, Jalali side: converting an oracle-valid date to its day
number and back is the identity. -/
theorem jalali_from_to_id (y m d : Int) (hm1 : 1 ≤ m) (hm2 : m ≤ 12) (hd1 : 1 ≤ d)
    (hd2 : d ≤ month_len y m) :
    jalali_from_day_number (jalali_day_number y m d) = (y, m, d) := by
  have hr0 : 0 ≤ (y - 1) % 33 := by omega
  have hr1 : (y - 1) % 33 < 33 := by omega
  have hy33 : y % 33 = ((y - 1) % 33 + 1) % 33 := by omega
  have hsucc := leap_cnt_succ ((y - 1) % 33)
  have hnn := leap_cnt_nonneg ((y - 1) % 33)
  have hle8 := leap_cnt_le8 ((y - 1) % 33)
  have hnn2 := leap_cnt_nonneg ((y - 1) % 33 + 1)
  have hle8b := leap_cnt_le8 ((y - 1) % 33 + 1)
  have hstep := leap_cnt_step ((y - 1) % 33) hr0 hr1
  have hEsf : m = 12 →
      d ≤ 29 + (leap_cnt ((y - 1) % 33 + 1) - leap_cnt ((y - 1) % 33)) := by
    intro hm12
    rw [month_len_eq y m hm1 hm2, hm12] at hd2
    norm_num at hd2
    by_cases hl : is_leap_year y = true
    · rw [if_pos hl] at hd2
      rw [is_leap_year_iff] at hl
      rw [hstep]
      split_ifs with hcond
      · omega
      · exfalso; omega
    · rw [if_neg hl] at hd2
      have hl2 : ¬ (y % 33 = 1 ∨ y % 33 = 5 ∨ y % 33 = 9 ∨ y % 33 = 13
          ∨ y % 33 = 17 ∨ y % 33 = 22 ∨ y % 33 = 26 ∨ y % 33 = 30) := by
        rw [← is_leap_year_iff]
        exact hl
      rw [hstep]
      split_ifs with hcond
      · exfalso; omega
      · omega
  have hub : d ≤ (if m ≤ 6 then (31:Int) else 30) := by
    rw [month_len_eq y m hm1 hm2] at hd2
    split_ifs at hd2 ⊢ <;> omega
  have htb : 0 ≤ jalali_month_start m + d - 1
      ∧ jalali_month_start m + d - 1
          < 365 + leap_cnt ((y - 1) % 33 + 1) - leap_cnt ((y - 1) % 33) := by
    unfold jalali_month_start
    by_cases h12 : m = 12
    · have := hEsf h12
      split_ifs at this ⊢ <;> omega
    · split_ifs at hub ⊢ <;> omega
  have hn : jalali_day_number y m d
      = 12053 * ((y - 1) / 33) + (365 * ((y - 1) % 33) + leap_cnt ((y - 1) % 33)
          + (jalali_month_start m + d - 1)) := by
    unfold jalali_day_number leaps_before
    rw [fdiv_eq_div (y - 1) 33 (by norm_num), fmod_eq_mod (y - 1) 33 (by norm_num)]
    omega
  rw [hn, jalali_from_shape]
  rw [fdiv_eq_div _ 12053 (by norm_num), fmod_eq_mod _ 12053 (by norm_num)]
  have hq12053 : (12053 * ((y - 1) / 33) + (365 * ((y - 1) % 33)
      + leap_cnt ((y - 1) % 33) + (jalali_month_start m + d - 1))) / 12053
      = (y - 1) / 33 := by
    omega
  have hm12053 : (12053 * ((y - 1) / 33) + (365 * ((y - 1) % 33)
      + leap_cnt ((y - 1) % 33) + (jalali_month_start m + d - 1))) % 12053
      = 365 * ((y - 1) % 33) + leap_cnt ((y - 1) % 33)
          + (jalali_month_start m + d - 1) := by
    omega
  rw [hq12053, hm12053]
  rw [year_in_cycle_eq ((y - 1) % 33) (jalali_month_start m + d - 1) _ hr0 hr1 htb.1 htb.2
    rfl]
  have ht : 365 * ((y - 1) % 33) + leap_cnt ((y - 1) % 33) + (jalali_month_start m + d - 1)
      - (365 * ((y - 1) % 33) + leap_cnt ((y - 1) % 33)) = jalali_month_start m + d - 1 := by
    ring
  rw [ht, jalali_md_extract_jms m d hm1 hm2 hd1 hub]
  simp only [Prod.mk.injEq, and_true]
  omega

/-- Round trip, Jalali side, other direction: the day number of the date
produced by the inverse converter is the original ordinal, for every
integer ordinal. -/
theorem jalali_to_from_id (n Y M D : Int) (he : jalali_from_day_number n = (Y, M, D)) :
    jalali_day_number Y M D = n := by
  have hshape := jalali_from_shape n
  rw [he] at hshape
  simp only [Prod.mk.injEq] at hshape
  obtain ⟨hY, hM, hD⟩ := hshape
  rw [fdiv_eq_div _ 12053 (by norm_num)] at hY
  rw [fmod_eq_mod _ 12053 (by norm_num)] at hY hM hD
  obtain ⟨hj0, hj1, hjle, hjlt⟩ := year_in_cycle_bounds (n % 12053) (by omega) (by omega)
  have hcs := leap_cnt_succ (year_in_cycle (n % 12053))
  have hnn1 := leap_cnt_nonneg (year_in_cycle (n % 12053))
  have hle1 := leap_cnt_le8 (year_in_cycle (n % 12053))
  have ht0 : 0 ≤ n % 12053 - (365 * year_in_cycle (n % 12053)
      + leap_cnt (year_in_cycle (n % 12053))) := by omega
  have ht1 : n % 12053 - (365 * year_in_cycle (n % 12053)
      + leap_cnt (year_in_cycle (n % 12053))) ≤ 365 := by omega
  have hext := jalali_md_extract_bounds _ M D ht0 ht1 (by rw [hM, hD])
  obtain ⟨hM1, hM2, hD1, hjms, hDub, _⟩ := hext
  subst hY
  unfold jalali_day_number leaps_before
  rw [fdiv_eq_div _ 33 (by norm_num), fmod_eq_mod _ 33 (by norm_num)]
  have hmod33 : (33 * (n / 12053) + year_in_cycle (n % 12053) + 1 - 1) % 33
      = year_in_cycle (n % 12053) := by omega
  have hdiv33 : (33 * (n / 12053) + year_in_cycle (n % 12053) + 1 - 1) / 33
      = n / 12053 := by omega
  rw [hmod33, hdiv33]
  omega

/-- The leap-day indicator is 0 or 1. -/
theorem g_li_cases (y : Int) : g_li y = 0 ∨ g_li y = 1 := by
  unfold g_li
  split_ifs <;> norm_num

/-- The leap-day indicator in terms of euclidean remainders. -/
theorem g_li_one_iff (y : Int) :
    g_li y = 1 ↔ ((y % 4 = 0 ∧ ¬ y % 100 = 0) ∨ y % 400 = 0) := by
  unfold g_li g_is_leap
  rw [fmod_eq_mod _ 4 (by norm_num), fmod_eq_mod _ 100 (by norm_num),
    fmod_eq_mod _ 400 (by norm_num)]
  split_ifs with h
  · simp only [decide_eq_true_eq] at h
    exact ⟨fun _ => h, fun _ => rfl⟩
  · simp only [decide_eq_true_eq] at h
    constructor
    · intro hc; norm_num at hc
    · intro hc; exact absurd hc h

/-- The cycle decomposition stages, spelled with euclidean division. -/
theorem g_split_eqs (n : Int) :
    g_q400 n = n / 146097 ∧ g_r1 n = n % 146097
      ∧ g_q100 n = min 3 (g_r1 n / 36524) ∧ g_r2 n = g_r1 n - 36524 * g_q100 n
      ∧ g_q4 n = g_r2 n / 1461 ∧ g_r3 n = g_r2 n % 1461
      ∧ g_q1 n = min 3 (g_r3 n / 365) ∧ g_r4 n = g_r3 n - 365 * g_q1 n
      ∧ g_year n = 400 * g_q400 n + 100 * g_q100 n + 4 * g_q4 n + g_q1 n + 1 := by
  refine ⟨?_, ?_, ?_, rfl, ?_, ?_, ?_, rfl, rfl⟩
  · unfold g_q400; rw [fdiv_eq_div _ 146097 (by norm_num)]
  · unfold g_r1; rw [fmod_eq_mod _ 146097 (by norm_num)]
  · unfold g_q100; rw [fdiv_eq_div _ 36524 (by norm_num)]
  · unfold g_q4; rw [fdiv_eq_div _ 1461 (by norm_num)]
  · unfold g_r3; rw [fmod_eq_mod _ 1461 (by norm_num)]
  · unfold g_q1; rw [fdiv_eq_div _ 365 (by norm_num)]

/-- Branch-by-branch characterization of the Gregorian month/day
extraction. -/
theorem g_md_extract_spec (li t : Int) :
    (t < 31 → g_md_extract li t = (1, t + 1))
    ∧ (¬ t < 31 → t < 59 + li → g_md_extract li t = (2, t - 31 + 1))
    ∧ (¬ t < 31 → ¬ t < 59 + li → t < 90 + li →
        g_md_extract li t = (3, t - (59 + li) + 1))
    ∧ (¬ t < 31 → ¬ t < 59 + li → ¬ t < 90 + li → t < 120 + li →
        g_md_extract li t = (4, t - (90 + li) + 1))
    ∧ (¬ t < 31 → ¬ t < 59 + li → ¬ t < 90 + li → ¬ t < 120 + li → t < 151 + li →
        g_md_extract li t = (5, t - (120 + li) + 1))
    ∧ (¬ t < 31 → ¬ t < 59 + li → ¬ t < 90 + li → ¬ t < 120 + li → ¬ t < 151 + li →
        t < 181 + li → g_md_extract li t = (6, t - (151 + li) + 1))
    ∧ (¬ t < 31 → ¬ t < 59 + li → ¬ t < 90 + li → ¬ t < 120 + li → ¬ t < 151 + li →
        ¬ t < 181 + li → t < 212 + li → g_md_extract li t = (7, t - (181 + li) + 1))
    ∧ (¬ t < 31 → ¬ t < 59 + li → ¬ t < 90 + li → ¬ t < 120 + li → ¬ t < 151 + li →
        ¬ t < 181 + li → ¬ t < 212 + li → t < 243 + li →
        g_md_extract li t = (8, t - (212 + li) + 1))
    ∧ (¬ t < 31 → ¬ t < 59 + li → ¬ t < 90 + li → ¬ t < 120 + li → ¬ t < 151 + li →
        ¬ t < 181 + li → ¬ t < 212 + li → ¬ t < 243 + li → t < 273 + li →
        g_md_extract li t = (9, t - (243 + li) + 1))
    ∧ (¬ t < 31 → ¬ t < 59 + li → ¬ t < 90 + li → ¬ t < 120 + li → ¬ t < 151 + li →
        ¬ t < 181 + li → ¬ t < 212 + li → ¬ t < 243 + li → ¬ t < 273 + li →
        t < 304 + li → g_md_extract li t = (10, t - (273 + li) + 1))
    ∧ (¬ t < 31 → ¬ t < 59 + li → ¬ t < 90 + li → ¬ t < 120 + li → ¬ t < 151 + li →
        ¬ t < 181 + li → ¬ t < 212 + li → ¬ t < 243 + li → ¬ t < 273 + li →
        ¬ t < 304 + li → t < 334 + li → g_md_extract li t = (11, t - (304 + li) + 1))
    ∧ (¬ t < 31 → ¬ t < 59 + li → ¬ t < 90 + li → ¬ t < 120 + li → ¬ t < 151 + li →
        ¬ t < 181 + li → ¬ t < 212 + li → ¬ t < 243 + li → ¬ t < 273 + li →
        ¬ t < 304 + li → ¬ t < 334 + li →
        g_md_extract li t = (12, t - (334 + li) + 1)) := by
  refine ⟨?_, ?_, ?_, ?_, ?_, ?_, ?_, ?_, ?_, ?_, ?_, ?_⟩
  · intro h1
    rw [g_md_extract, if_pos h1]
  · intro h1 h2
    rw [g_md_extract, if_neg h1, if_pos h2]
  · intro h1 h2 h3
    rw [g_md_extract, if_neg h1, if_neg h2, if_pos h3]
  · intro h1 h2 h3 h4
    rw [g_md_extract, if_neg h1, if_neg h2, if_neg h3, if_pos h4]
  · intro h1 h2 h3 h4 h5
    rw [g_md_extract, if_neg h1, if_neg h2, if_neg h3, if_neg h4, if_pos h5]
  · intro h1 h2 h3 h4 h5 h6
    rw [g_md_extract, if_neg h1, if_neg h2, if_neg h3, if_neg h4, if_neg h5, if_pos h6]
  · intro h1 h2 h3 h4 h5 h6 h7
    rw [g_md_extract, if_neg h1, if_neg h2, if_neg h3, if_neg h4, if_neg h5, if_neg h6,
      if_pos h7]
  · intro h1 h2 h3 h4 h5 h6 h7 h8
    rw [g_md_extract, if_neg h1, if_neg h2, if_neg h3, if_neg h4, if_neg h5, if_neg h6,
      if_neg h7, if_pos h8]
  · intro h1 h2 h3 h4 h5 h6 h7 h8 h9
    rw [g_md_extract, if_neg h1, if_neg h2, if_neg h3, if_neg h4, if_neg h5, if_neg h6,
      if_neg h7, if_neg h8, if_pos h9]
  · intro h1 h2 h3 h4 h5 h6 h7 h8 h9 h10
    rw [g_md_extract, if_neg h1, if_neg h2, if_neg h3, if_neg h4, if_neg h5, if_neg h6,
      if_neg h7, if_neg h8, if_neg h9, if_pos h10]
  · intro h1 h2 h3 h4 h5 h6 h7 h8 h9 h10 h11
    rw [g_md_extract, if_neg h1, if_neg h2, if_neg h3, if_neg h4, if_neg h5, if_neg h6,
      if_neg h7, if_neg h8, if_neg h9, if_neg h10, if_pos h11]
  · intro h1 h2 h3 h4 h5 h6 h7 h8 h9 h10 h11
    rw [g_md_extract, if_neg h1, if_neg h2, if_neg h3, if_neg h4, if_neg h5, if_neg h6,
      if_neg h7, if_neg h8, if_neg h9, if_neg h10, if_neg h11]

/-- Forward Gregorian extraction: the month/day extraction inverts the
month-start table on in-range days. -/
theorem g_md_extract_gms (li m d : Int) (hli : li = 0 ∨ li = 1) (hm1 : 1 ≤ m)
    (hm2 : m ≤ 12) (hd1 : 1 ≤ d) (hub : d ≤ g_month_len li m) :
    g_md_extract li (g_month_start li m + d - 1) = (m, d) := by
  interval_cases m
  · norm_num [g_month_len] at hub
    have hs : g_month_start li 1 = 0 := by norm_num [g_month_start]
    rw [hs, (g_md_extract_spec li (0 + d - 1)).1 (by omega)]
    simp only [Prod.mk.injEq, true_and]
    omega
  · norm_num [g_month_len] at hub
    have hs : g_month_start li 2 = 31 := by norm_num [g_month_start]
    rw [hs, (g_md_extract_spec li (31 + d - 1)).2.1 (by omega) (by omega)]
    simp only [Prod.mk.injEq, true_and]
    omega
  · norm_num [g_month_len] at hub
    have hs : g_month_start li 3 = 59 + li := by norm_num [g_month_start]
    rw [hs, (g_md_extract_spec li (59 + li + d - 1)).2.2.1 (by omega) (by omega) (by omega)]
    simp only [Prod.mk.injEq, true_and]
    omega
  · norm_num [g_month_len] at hub
    have hs : g_month_start li 4 = 90 + li := by norm_num [g_month_start]
    rw [hs, (g_md_extract_spec li (90 + li + d - 1)).2.2.2.1 (by omega) (by omega)
      (by omega) (by omega)]
    simp only [Prod.mk.injEq, true_and]
    omega
  · norm_num [g_month_len] at hub
    have hs : g_month_start li 5 = 120 + li := by norm_num [g_month_start]
    rw [hs, (g_md_extract_spec li (120 + li + d - 1)).2.2.2.2.1 (by omega) (by omega)
      (by omega) (by omega) (by omega)]
    simp only [Prod.mk.injEq, true_and]
    omega
  · norm_num [g_month_len] at hub
    have hs : g_month_start li 6 = 151 + li := by norm_num [g_month_start]
    rw [hs, (g_md_extract_spec li (151 + li + d - 1)).2.2.2.2.2.1 (by omega) (by omega)
      (by omega) (by omega) (by omega) (by omega)]
    simp only [Prod.mk.injEq, true_and]
    omega
  · norm_num [g_month_len] at hub
    have hs : g_month_start li 7 = 181 + li := by norm_num [g_month_start]
    rw [hs, (g_md_extract_spec li (181 + li + d - 1)).2.2.2.2.2.2.1 (by omega) (by omega)
      (by omega) (by omega) (by omega) (by omega) (by omega)]
    simp only [Prod.mk.injEq, true_and]
    omega
  · norm_num [g_month_len] at hub
    have hs : g_month_start li 8 = 212 + li := by norm_num [g_month_start]
    rw [hs, (g_md_extract_spec li (212 + li + d - 1)).2.2.2.2.2.2.2.1 (by omega)
      (by omega) (by omega) (by omega) (by omega) (by omega) (by omega) (by omega)]
    simp only [Prod.mk.injEq, true_and]
    omega
  · norm_num [g_month_len] at hub
    have hs : g_month_start li 9 = 243 + li := by norm_num [g_month_start]
    rw [hs, (g_md_extract_spec li (243 + li + d - 1)).2.2.2.2.2.2.2.2.1 (by omega)
      (by omega) (by omega) (by omega) (by omega) (by omega) (by omega) (by omega)
      (by omega)]
    simp only [Prod.mk.injEq, true_and]
    omega
  · norm_num [g_month_len] at hub
    have hs : g_month_start li 10 = 273 + li := by norm_num [g_month_start]
    rw [hs, (g_md_extract_spec li (273 + li + d - 1)).2.2.2.2.2.2.2.2.2.1 (by omega)
      (by omega) (by omega) (by omega) (by omega) (by omega) (by omega) (by omega)
      (by omega) (by omega)]
    simp only [Prod.mk.injEq, true_and]
    omega
  · norm_num [g_month_len] at hub
    have hs : g_month_start li 11 = 304 + li := by norm_num [g_month_start]
    rw [hs, (g_md_extract_spec li (304 + li + d - 1)).2.2.2.2.2.2.2.2.2.2.1 (by omega)
      (by omega) (by omega) (by omega) (by omega) (by omega) (by omega) (by omega)
      (by omega) (by omega) (by omega)]
    simp only [Prod.mk.injEq, true_and]
    omega
  · norm_num [g_month_len] at hub
    have hs : g_month_start li 12 = 334 + li := by norm_num [g_month_start]
    rw [hs, (g_md_extract_spec li (334 + li + d - 1)).2.2.2.2.2.2.2.2.2.2.2 (by omega)
      (by omega) (by omega) (by omega) (by omega) (by omega) (by omega) (by omega)
      (by omega) (by omega) (by omega)]
    simp only [Prod.mk.injEq, true_and]
    omega

/-- Backward Gregorian extraction: any in-range day-of-year offset yields
a valid month/day pair that maps back to it. -/
theorem g_md_extract_bounds (li t M D : Int) (hli : li = 0 ∨ li = 1)
    (h0 : 0 ≤ t) (h1 : t ≤ 364 + li) (he : g_md_extract li t = (M, D)) :
    1 ≤ M ∧ M ≤ 12 ∧ 1 ≤ D ∧ g_month_start li M + D - 1 = t
      ∧ D ≤ g_month_len li M := by
  by_cases c1 : t < 31
  · rw [(g_md_extract_spec li t).1 c1] at he
    simp only [Prod.mk.injEq] at he
    obtain ⟨hM, hD⟩ := he
    subst hM
    subst hD
    norm_num [g_month_start, g_month_len] <;> omega
  by_cases c2 : t < 59 + li
  · rw [(g_md_extract_spec li t).2.1 c1 c2] at he
    simp only [Prod.mk.injEq] at he
    obtain ⟨hM, hD⟩ := he
    subst hM
    subst hD
    norm_num [g_month_start, g_month_len] <;> omega
  by_cases c3 : t < 90 + li
  · rw [(g_md_extract_spec li t).2.2.1 c1 c2 c3] at he
    simp only [Prod.mk.injEq] at he
    obtain ⟨hM, hD⟩ := he
    subst hM
    subst hD
    norm_num [g_month_start, g_month_len] <;> omega
  by_cases c4 : t < 120 + li
  · rw [(g_md_extract_spec li t).2.2.2.1 c1 c2 c3 c4] at he
    simp only [Prod.mk.injEq] at he
    obtain ⟨hM, hD⟩ := he
    subst hM
    subst hD
    norm_num [g_month_start, g_month_len] <;> omega
  by_cases c5 : t < 151 + li
  · rw [(g_md_extract_spec li t).2.2.2.2.1 c1 c2 c3 c4 c5] at he
    simp only [Prod.mk.injEq] at he
    obtain ⟨hM, hD⟩ := he
    subst hM
    subst hD
    norm_num [g_month_start, g_month_len] <;> omega
  by_cases c6 : t < 181 + li
  · rw [(g_md_extract_spec li t).2.2.2.2.2.1 c1 c2 c3 c4 c5 c6] at he
    simp only [Prod.mk.injEq] at he
    obtain ⟨hM, hD⟩ := he
    subst hM
    subst hD
    norm_num [g_month_start, g_month_len] <;> omega
  by_cases c7 : t < 212 + li
  · rw [(g_md_extract_spec li t).2.2.2.2.2.2.1 c1 c2 c3 c4 c5 c6 c7] at he
    simp only [Prod.mk.injEq] at he
    obtain ⟨hM, hD⟩ := he
    subst hM
    subst hD
    norm_num [g_month_start, g_month_len] <;> omega
  by_cases c8 : t < 243 + li
  · rw [(g_md_extract_spec li t).2.2.2.2.2.2.2.1 c1 c2 c3 c4 c5 c6 c7 c8] at he
    simp only [Prod.mk.injEq] at he
    obtain ⟨hM, hD⟩ := he
    subst hM
    subst hD
    norm_num [g_month_start, g_month_len] <;> omega
  by_cases c9 : t < 273 + li
  · rw [(g_md_extract_spec li t).2.2.2.2.2.2.2.2.1 c1 c2 c3 c4 c5 c6 c7 c8 c9] at he
    simp only [Prod.mk.injEq] at he
    obtain ⟨hM, hD⟩ := he
    subst hM
    subst hD
    norm_num [g_month_start, g_month_len] <;> omega
  by_cases c10 : t < 304 + li
  · rw [(g_md_extract_spec li t).2.2.2.2.2.2.2.2.2.1 c1 c2 c3 c4 c5 c6 c7 c8 c9 c10] at he
    simp only [Prod.mk.injEq] at he
    obtain ⟨hM, hD⟩ := he
    subst hM
    subst hD
    norm_num [g_month_start, g_month_len] <;> omega
  by_cases c11 : t < 334 + li
  · rw [(g_md_extract_spec li t).2.2.2.2.2.2.2.2.2.2.1
      c1 c2 c3 c4 c5 c6 c7 c8 c9 c10 c11] at he
    simp only [Prod.mk.injEq] at he
    obtain ⟨hM, hD⟩ := he
    subst hM
    subst hD
    norm_num [g_month_start, g_month_len] <;> omega
  rw [(g_md_extract_spec li t).2.2.2.2.2.2.2.2.2.2.2
    c1 c2 c3 c4 c5 c6 c7 c8 c9 c10 c11] at he
  simp only [Prod.mk.injEq] at he
  obtain ⟨hM, hD⟩ := he
  subst hM
  subst hD
  norm_num [g_month_start, g_month_len] <;> omega

set_option maxHeartbeats 1000000 in
/-- Round trip, Gregorian side, ordinal direction: the day number of the
date produced by the inverse converter is the original ordinal, for every
integer ordinal. -/
theorem g_to_from_id (n Y M D : Int) (he : g_from_day_number n = (Y, M, D)) :
    g_day_number Y M D = n := by
  unfold g_from_day_number at he
  simp only [Prod.mk.injEq] at he
  obtain ⟨hY, hM, hD⟩ := he
  obtain ⟨e1, e2, e3, e4, e5, e6, e7, e8, e9⟩ := g_split_eqs n
  have hli1 := g_li_one_iff (g_year n)
  have h0 : 0 ≤ g_r4 n := by omega
  have h1 : g_r4 n ≤ 364 + g_li (g_year n) := by
    rcases g_li_cases (g_year n) with hl | hl
    · have hnm : ¬ ((g_year n % 4 = 0 ∧ ¬ g_year n % 100 = 0)
          ∨ g_year n % 400 = 0) := by
        intro hc
        have := hli1.mpr hc
        omega
      rw [hl]
      by_contra hcon
      have h365 : g_r4 n = 365 ∧ g_q1 n = 3 ∧ g_r3 n = 1460 := by omega
      have hq4b : 0 ≤ g_q4 n ∧ g_q4 n ≤ 24 := by omega
      have h4 : g_year n % 4 = 0 := by omega
      have h100 : g_year n % 100 = 0 := by omega
      have hq4 : g_q4 n = 24 := by omega
      have hr2 : g_r2 n = 36524 := by omega
      have hq100 : g_q100 n = 3 := by omega
      have h400 : g_year n % 400 = 0 := by omega
      omega
    · omega
  have hext := g_md_extract_bounds (g_li (g_year n)) (g_r4 n) M D
    (g_li_cases (g_year n)) h0 h1 (by rw [← hM, ← hD])
  obtain ⟨hM1, hM2, hD1, hgms, hDub⟩ := hext
  subst hY
  unfold g_day_number
  rw [fdiv_eq_div _ 4 (by norm_num), fdiv_eq_div _ 100 (by norm_num),
    fdiv_eq_div _ 400 (by norm_num)]
  have hb1 : 0 ≤ g_q100 n ∧ g_q100 n ≤ 3 := by omega
  have hb2 : 0 ≤ g_q4 n ∧ g_q4 n ≤ 24 := by omega
  have hb3 : 0 ≤ g_q1 n ∧ g_q1 n ≤ 3 := by omega
  have hd4 : (g_year n - 1) / 4 = 100 * g_q400 n + 25 * g_q100 n + g_q4 n := by omega
  have hd100 : (g_year n - 1) / 100 = 4 * g_q400 n + g_q100 n := by omega
  have hd400 : (g_year n - 1) / 400 = g_q400 n := by omega
  rw [hd4, hd100, hd400]
  omega

set_option maxHeartbeats 4000000 in
/-- Round trip, Gregorian side, date direction: a valid Gregorian date
survives the trip through its ordinal. -/
theorem g_from_to_id (y m d : Int) (hm1 : 1 ≤ m) (hm2 : m ≤ 12) (hd1 : 1 ≤ d)
    (hd2 : d ≤ g_month_len (g_li y) m) :
    g_from_day_number (g_day_number y m d) = (y, m, d) := by
  have hli := g_li_cases y
  have hli1 := g_li_one_iff y
  have hNval : g_day_number y m d
      = 365 * (y - 1) + (y - 1) / 4 - (y - 1) / 100 + (y - 1) / 400
        + g_month_start (g_li y) m + (d - 1) := by
    unfold g_day_number
    rw [fdiv_eq_div _ 4 (by norm_num), fdiv_eq_div _ 100 (by norm_num),
      fdiv_eq_div _ 400 (by norm_num)]
  have ht : 0 ≤ g_month_start (g_li y) m + d - 1
      ∧ g_month_start (g_li y) m + d - 1 ≤ 364 + g_li y := by
    unfold g_month_len at hd2
    unfold g_month_start
    split_ifs at hd2 ⊢ <;> omega
  obtain ⟨ht0, ht1⟩ := ht
  obtain ⟨e1, e2, e3, e4, e5, e6, e7, e8, e9⟩ := g_split_eqs (g_day_number y m d)
  have hcomp : g_year (g_day_number y m d) = y
      ∧ g_r4 (g_day_number y m d) = g_month_start (g_li y) m + d - 1 := by
    have h4 : (y - 1) / 4
        = 100 * ((y - 1) / 400) + 25 * ((y - 1) % 400 / 100)
          + (y - 1) % 400 % 100 / 4 := by
      omega
    have h100 : (y - 1) / 100 = 4 * ((y - 1) / 400) + (y - 1) % 400 / 100 := by omega
    have hN2 : g_day_number y m d
        = 146097 * ((y - 1) / 400) + 36524 * ((y - 1) % 400 / 100)
          + 1461 * ((y - 1) % 400 % 100 / 4) + 365 * ((y - 1) % 400 % 100 % 4)
          + (g_month_start (g_li y) m + d - 1) := by
      omega
    clear hNval h4 h100 hd2 hd1 hm1 hm2
    have he4 : (y - 1) % 4 = (y - 1) % 400 % 100 % 4 := by omega
    have hq400 : g_q400 (g_day_number y m d) = (y - 1) / 400 := by omega
    have hr1 : g_r1 (g_day_number y m d)
        = 36524 * ((y - 1) % 400 / 100) + 1461 * ((y - 1) % 400 % 100 / 4)
          + 365 * ((y - 1) % 400 % 100 % 4) + (g_month_start (g_li y) m + d - 1) := by
      omega
    clear hN2 e1 e2
    rcases hli with hl | hl
    · have hq100 : g_q100 (g_day_number y m d) = (y - 1) % 400 / 100 := by omega
      have hq4 : g_q4 (g_day_number y m d) = (y - 1) % 400 % 100 / 4 := by omega
      have hq1 : g_q1 (g_day_number y m d) = (y - 1) % 400 % 100 % 4 := by omega
      constructor <;> omega
    · have hym := hli1.mp hl
      clear hli1
      have he3 : (y - 1) % 400 % 100 % 4 = 3 := by omega
      have hq100 : g_q100 (g_day_number y m d) = (y - 1) % 400 / 100 := by
        by_cases hcrit : (y - 1) % 400 % 100 / 4 = 24
            ∧ g_month_start (g_li y) m + d - 1 = 365
        · have hy100 : y % 100 = 0 := by
            clear e3 e4 e5 e6 e7 e8 e9 hr1 hq400 ht0 ht1 hym hl
            omega
          have hy400 : y % 400 = 0 := by
            clear e3 e4 e5 e6 e7 e8 e9 hr1 hq400 ht0 ht1 he3 hl
            omega
          have hb3 : (y - 1) % 400 / 100 = 3 := by
            clear e3 e4 e5 e6 e7 e8 e9 hr1 hq400 ht0 ht1 he3 hym hl
            omega
          clear hym ht0 ht1 e4 e5 e6 e7 e8 e9 hq400 he4 hy100
          omega
        · clear e4 e5 e6 e7 e8 e9 hq400 hym he4
          omega
      have hq4 : g_q4 (g_day_number y m d) = (y - 1) % 400 % 100 / 4 := by omega
      have hq1 : g_q1 (g_day_number y m d) = 3 := by omega
      constructor <;> omega
  unfold g_from_day_number
  rw [hcomp.1, hcomp.2, g_md_extract_gms (g_li y) m d (g_li_cases y) hm1 hm2 hd1 hd2]

/-- The cached Jalali-to-Gregorian scalar path agrees with the direct
conversion, whether or not the lookup tables are published. -/
theorem jalali_scalar_eq (lookupReady : Bool) (y m d : Int) :
    jalali_to_gregorian_scalar lookupReady y m d = jalali_to_gregorian_conv y m d := by
  unfold jalali_to_gregorian_scalar jalali_lookup_table
  cases lookupReady <;> split_ifs <;> rfl

/-- The cached Gregorian-to-Jalali scalar path agrees with the direct
conversion, whether or not the lookup tables are published. -/
theorem gregorian_scalar_eq (lookupReady : Bool) (gy gm gd : Int) :
    gregorian_to_jalali_scalar lookupReady gy gm gd
      = gregorian_to_jalali_conv gy gm gd := by
  unfold gregorian_to_jalali_scalar gregorian_lookup_table
  cases lookupReady <;> split_ifs <;> rfl

/-- Claim C2: for every oracle-valid Jalali date,
`gregorian_to_jalali(jalali_to_gregorian(y, m, d)) = (y, m, d)`, and
symmetrically every valid Gregorian date survives the trip through Jalali
and back; both round trips hold on the direct scalar path and on the
lookup-cache path alike (the cache, when consulted, stores exactly the
values of the direct conversion). -/
theorem C2_conversion_round_trip :
    (∀ (lookupReady : Bool) (y m d : Int),
        validate_jalali_date y m d = Except.ok true →
        gregorian_to_jalali_scalar lookupReady
            (jalali_to_gregorian_scalar lookupReady y m d).1
            (jalali_to_gregorian_scalar lookupReady y m d).2.1
            (jalali_to_gregorian_scalar lookupReady y m d).2.2
          = (y, m, d))
    ∧ (∀ (lookupReady : Bool) (gy gm gd : Int),
        g_valid_date gy gm gd →
        jalali_to_gregorian_scalar lookupReady
            (gregorian_to_jalali_scalar lookupReady gy gm gd).1
            (gregorian_to_jalali_scalar lookupReady gy gm gd).2.1
            (gregorian_to_jalali_scalar lookupReady gy gm gd).2.2
          = (gy, gm, gd)) := by
  constructor
  · intro lookupReady y m d hv
    obtain ⟨hm1, hm2, hd1, hd2⟩ := (validate_ok_iff y m d).mp hv
    rw [jalali_scalar_eq, gregorian_scalar_eq]
    unfold gregorian_to_jalali_conv jalali_to_gregorian_conv
    rw [g_to_from_id (jalali_day_number y m d + JG_OFFSET)
      (g_from_day_number (jalali_day_number y m d + JG_OFFSET)).1
      (g_from_day_number (jalali_day_number y m d + JG_OFFSET)).2.1
      (g_from_day_number (jalali_day_number y m d + JG_OFFSET)).2.2 rfl]
    have hX : jalali_day_number y m d + JG_OFFSET - JG_OFFSET
        = jalali_day_number y m d := by
      omega
    rw [hX]
    exact jalali_from_to_id y m d hm1 hm2 hd1 hd2
  · intro lookupReady gy gm gd hv
    have hv2 : 1 ≤ gm ∧ gm ≤ 12 ∧ 1 ≤ gd ∧ gd ≤ g_month_len (g_li gy) gm := hv
    obtain ⟨hm1, hm2, hd1, hd2⟩ := hv2
    rw [gregorian_scalar_eq, jalali_scalar_eq]
    unfold jalali_to_gregorian_conv gregorian_to_jalali_conv
    rw [jalali_to_from_id (g_day_number gy gm gd - JG_OFFSET)
      (jalali_from_day_number (g_day_number gy gm gd - JG_OFFSET)).1
      (jalali_from_day_number (g_day_number gy gm gd - JG_OFFSET)).2.1
      (jalali_from_day_number (g_day_number gy gm gd - JG_OFFSET)).2.2 rfl]
    have hX : g_day_number gy gm gd - JG_OFFSET + JG_OFFSET
        = g_day_number gy gm gd := by
      omega
    rw [hX]
    exact g_from_to_id gy gm gd hm1 hm2 hd1 hd2

/-- Witness for C2, at the spec's own anchor scenario
`(1402, 1, 1) = 2023-03-21`: a cache-path Jalali round trip and a direct
Gregorian round trip at concrete dates. -/
theorem C2_witness :
    gregorian_to_jalali_scalar true
        (jalali_to_gregorian_scalar true 1402 1 1).1
        (jalali_to_gregorian_scalar true 1402 1 1).2.1
        (jalali_to_gregorian_scalar true 1402 1 1).2.2 = (1402, 1, 1)
      ∧ jalali_to_gregorian_scalar false
          (gregorian_to_jalali_scalar false 2023 3 21).1
          (gregorian_to_jalali_scalar false 2023 3 21).2.1
          (gregorian_to_jalali_scalar false 2023 3 21).2.2 = (2023, 3, 21) :=
  ⟨C2_conversion_round_trip.1 true 1402 1 1 (by decide),
    C2_conversion_round_trip.2 false 2023 3 21 (by decide)⟩

end JalaliPandas
